import Mathlib

/-!
Verification development for the CBASIC interpreter core (a C17 port of
Microsoft BASIC 1.1).  The C sources under `src/` are shallowly embedded:

* bytes are `Nat` (always < 256 in practice); NUL-terminated C strings
  become byte lists, where reading past the end yields the terminator 0;
* the IEEE-754 `double` numeric tower is modelled by exact rationals
  (the computable fraction type `Q` below, whose operations the kernel
  can evaluate).  Every computation checked below stays on values where
  double arithmetic is exact (small integers and dyadic fractions), so
  the model agrees with the C code on all inputs exercised here;
* pointer-linked structures (program line list, variable list, array
  list, runtime stack) become Lean lists; a `ProgramLine *` into the
  program list is represented by the list suffix starting at that line,
  and a `Variable *` by the variable's (unique) normalized name;
* recursion that is bounded in C only by input size or by loop counters
  is given an explicit fuel argument; `none` signals exhausted fuel or a
  statement outside the embedded fragment.

Function and constant names follow the C sources (`tokenizer.c`,
`interpreter.c`, `expression.c`, `statements.c`, `variables.c`,
`functions.c`, `include/basic.h`).
-/

namespace CBASIC


/-- Byte list of a Lean string literal (ASCII source text). -/
def strBytes (s : String) : List Nat := s.toList.map Char.toNat

/-- Macro `BASIC_TOUPPER` from `include/basic.h`. -/
def TOUPPER (c : Nat) : Nat := if 97 ≤ c ∧ c ≤ 122 then c - 32 else c

/-- Macro `BASIC_IS_DIGIT`. -/
def IS_DIGIT (c : Nat) : Bool := 48 ≤ c && c ≤ 57

/-- Macro `BASIC_IS_LETTER`. -/
def IS_LETTER (c : Nat) : Bool := (65 ≤ c && c ≤ 90) || (97 ≤ c && c ≤ 122)

/-- Macro `BASIC_IS_TOKEN` (token bytes are ≥ 0x80). -/
def IS_TOKEN (c : Nat) : Bool := 128 ≤ c

/-- Macro `BASIC_IS_EOL`. -/
def IS_EOL (c : Nat) : Bool := c == 0 || c == 10 || c == 13

/-- Macro `BASIC_IS_EOS` (colon or end of line). -/
def IS_EOS (c : Nat) : Bool := c == 58 || IS_EOL c

/- Token codes from the `Token` enum in `include/basic.h` (TOK_END = 0x80,
subsequent values consecutive). -/

def TOK_END : Nat := 128
def TOK_FOR : Nat := 129
def TOK_NEXT : Nat := 130
def TOK_DATA : Nat := 131
def TOK_INPUT : Nat := 132
def TOK_DIM : Nat := 133
def TOK_READ : Nat := 134
def TOK_LET : Nat := 135
def TOK_GOTO : Nat := 136
def TOK_RUN : Nat := 137
def TOK_IF : Nat := 138
def TOK_RESTORE : Nat := 139
def TOK_GOSUB : Nat := 140
def TOK_RETURN : Nat := 141
def TOK_REM : Nat := 142
def TOK_STOP : Nat := 143
def TOK_ON : Nat := 144
def TOK_NULL : Nat := 145
def TOK_WAIT : Nat := 146
def TOK_LOAD : Nat := 147
def TOK_SAVE : Nat := 148
def TOK_VERIFY : Nat := 149
def TOK_DEF : Nat := 150
def TOK_POKE : Nat := 151
def TOK_PRINT : Nat := 152
def TOK_CONT : Nat := 153
def TOK_LIST : Nat := 154
def TOK_CLEAR : Nat := 155
def TOK_GET : Nat := 156
def TOK_NEW : Nat := 157
def TOK_TAB : Nat := 158
def TOK_TO : Nat := 159
def TOK_FN : Nat := 160
def TOK_SPC : Nat := 161
def TOK_THEN : Nat := 162
def TOK_NOT : Nat := 163
def TOK_STEP : Nat := 164
def TOK_PLUS : Nat := 165
def TOK_MINUS : Nat := 166
def TOK_MULTIPLY : Nat := 167
def TOK_DIVIDE : Nat := 168
def TOK_POWER : Nat := 169
def TOK_AND : Nat := 170
def TOK_OR : Nat := 171
def TOK_GT : Nat := 172
def TOK_EQ : Nat := 173
def TOK_LT : Nat := 174
def TOK_SGN : Nat := 175
def TOK_INT : Nat := 176
def TOK_ABS : Nat := 177
def TOK_USR : Nat := 178
def TOK_FRE : Nat := 179
def TOK_POS : Nat := 180
def TOK_SQR : Nat := 181
def TOK_RND : Nat := 182
def TOK_LOG : Nat := 183
def TOK_EXP : Nat := 184
def TOK_COS : Nat := 185
def TOK_SIN : Nat := 186
def TOK_TAN : Nat := 187
def TOK_ATN : Nat := 188
def TOK_PEEK : Nat := 189
def TOK_LEN : Nat := 190
def TOK_STR : Nat := 191
def TOK_VAL : Nat := 192
def TOK_ASC : Nat := 193
def TOK_CHR : Nat := 194
def TOK_LEFT : Nat := 195
def TOK_RIGHT : Nat := 196
def TOK_MID : Nat := 197
def TOK_LAST : Nat := 198

/-- Reserved-word table `reserved_words` from `tokenizer.c`, in source
order (the order matters: the tokenizer takes the first match). -/
def reserved_words : List (List Nat × Nat) :=
  [ (strBytes "END", TOK_END)
  , (strBytes "FOR", TOK_FOR)
  , (strBytes "NEXT", TOK_NEXT)
  , (strBytes "DATA", TOK_DATA)
  , (strBytes "INPUT", TOK_INPUT)
  , (strBytes "DIM", TOK_DIM)
  , (strBytes "READ", TOK_READ)
  , (strBytes "LET", TOK_LET)
  , (strBytes "GOTO", TOK_GOTO)
  , (strBytes "RUN", TOK_RUN)
  , (strBytes "IF", TOK_IF)
  , (strBytes "RESTORE", TOK_RESTORE)
  , (strBytes "GOSUB", TOK_GOSUB)
  , (strBytes "RETURN", TOK_RETURN)
  , (strBytes "REM", TOK_REM)
  , (strBytes "STOP", TOK_STOP)
  , (strBytes "ON", TOK_ON)
  , (strBytes "NULL", TOK_NULL)
  , (strBytes "WAIT", TOK_WAIT)
  , (strBytes "LOAD", TOK_LOAD)
  , (strBytes "SAVE", TOK_SAVE)
  , (strBytes "VERIFY", TOK_VERIFY)
  , (strBytes "DEF", TOK_DEF)
  , (strBytes "POKE", TOK_POKE)
  , (strBytes "PRINT", TOK_PRINT)
  , (strBytes "CONT", TOK_CONT)
  , (strBytes "LIST", TOK_LIST)
  , (strBytes "CLEAR", TOK_CLEAR)
  , (strBytes "GET", TOK_GET)
  , (strBytes "NEW", TOK_NEW)
  , (strBytes "TAB(", TOK_TAB)
  , (strBytes "TO", TOK_TO)
  , (strBytes "FN", TOK_FN)
  , (strBytes "SPC(", TOK_SPC)
  , (strBytes "THEN", TOK_THEN)
  , (strBytes "NOT", TOK_NOT)
  , (strBytes "STEP", TOK_STEP)
  , (strBytes "AND", TOK_AND)
  , (strBytes "OR", TOK_OR)
  , (strBytes "SGN", TOK_SGN)
  , (strBytes "INT", TOK_INT)
  , (strBytes "ABS", TOK_ABS)
  , (strBytes "USR", TOK_USR)
  , (strBytes "FRE", TOK_FRE)
  , (strBytes "POS", TOK_POS)
  , (strBytes "SQR", TOK_SQR)
  , (strBytes "RND", TOK_RND)
  , (strBytes "LOG", TOK_LOG)
  , (strBytes "EXP", TOK_EXP)
  , (strBytes "COS", TOK_COS)
  , (strBytes "SIN", TOK_SIN)
  , (strBytes "TAN", TOK_TAN)
  , (strBytes "ATN", TOK_ATN)
  , (strBytes "PEEK", TOK_PEEK)
  , (strBytes "LEN", TOK_LEN)
  , (strBytes "STR$", TOK_STR)
  , (strBytes "VAL", TOK_VAL)
  , (strBytes "ASC", TOK_ASC)
  , (strBytes "CHR$", TOK_CHR)
  , (strBytes "LEFT$", TOK_LEFT)
  , (strBytes "RIGHT$", TOK_RIGHT)
  , (strBytes "MID$", TOK_MID) ]

/-- Detokenization table `token_strings` from `tokenizer.c`; entry `i`
is the canonical spelling of token `0x80 + i`. -/
def token_strings : List (List Nat) :=
  [ strBytes "END", strBytes "FOR", strBytes "NEXT", strBytes "DATA"
  , strBytes "INPUT", strBytes "DIM", strBytes "READ", strBytes "LET"
  , strBytes "GOTO", strBytes "RUN", strBytes "IF", strBytes "RESTORE"
  , strBytes "GOSUB", strBytes "RETURN", strBytes "REM", strBytes "STOP"
  , strBytes "ON", strBytes "NULL", strBytes "WAIT", strBytes "LOAD"
  , strBytes "SAVE", strBytes "VERIFY", strBytes "DEF", strBytes "POKE"
  , strBytes "PRINT", strBytes "CONT", strBytes "LIST", strBytes "CLEAR"
  , strBytes "GET", strBytes "NEW"
  , strBytes "TAB(", strBytes "TO", strBytes "FN", strBytes "SPC("
  , strBytes "THEN", strBytes "NOT", strBytes "STEP"
  , strBytes "+", strBytes "-", strBytes "*", strBytes "/", strBytes "^"
  , strBytes "AND", strBytes "OR", strBytes ">", strBytes "=", strBytes "<"
  , strBytes "SGN", strBytes "INT", strBytes "ABS", strBytes "USR"
  , strBytes "FRE", strBytes "POS", strBytes "SQR", strBytes "RND"
  , strBytes "LOG", strBytes "EXP", strBytes "COS", strBytes "SIN"
  , strBytes "TAN", strBytes "ATN", strBytes "PEEK", strBytes "LEN"
  , strBytes "STR$", strBytes "VAL", strBytes "ASC", strBytes "CHR$"
  , strBytes "LEFT$", strBytes "RIGHT$", strBytes "MID$" ]

/-- Case-insensitive match of reserved word `w` against the head of
`src` (`basic_tokenize`, comparison loop).  The C code skips table
entries longer than the remaining input, which coincides with the match
failing when `src` runs out. -/
def matchWord : List Nat → List Nat → Bool
  | [], _ => true
  | _ :: _, [] => false
  | c :: w, s :: src => (TOUPPER s == c) && matchWord w src

/-- Word-boundary test of `basic_tokenize`: the character after the
match must be neither letter nor digit, except that words ending in `(`
are self-delimiting and `FN` always tokenizes.  Reading `src[len]` at
the end of the C string yields the NUL terminator, hence `headD 0`. -/
def wordBoundaryOK (src w : List Nat) (tok : Nat) : Bool :=
  let next := (src.drop w.length).headD 0
  let boundary := !(IS_LETTER next) && !(IS_DIGIT next)
  let boundary := if w.getLast? == some 40 then true else boundary
  if tok == TOK_FN then true else boundary

/-- Scan of the reserved-word table in `basic_tokenize`: first entry
that matches with an acceptable boundary. -/
def findReserved (src : List Nat) : Option (List Nat × Nat) :=
  reserved_words.find? (fun p => matchWord p.1 src && wordBoundaryOK src p.1 p.2)

/-- Body of `basic_tokenize` (tokenizer.c).  Modes: `instr` inside a
double-quoted string, `indata` inside a DATA payload, `inrem` after REM.
The fuel is the number of remaining loop steps; each step consumes at
least one source byte, so `src.length` steps always suffice. -/
def basic_tokenize_aux : Nat → List Nat → Bool → Bool → Bool → List Nat
  | 0, _, _, _, _ => []
  | _ + 1, [], _, _, _ => []
  | fuel + 1, c :: rest, instr, indata, inrem =>
    if c = 0 then []
    else if c = 34 then 34 :: basic_tokenize_aux fuel rest (!instr) indata inrem
    else if instr then c :: basic_tokenize_aux fuel rest instr indata inrem
    else if inrem then c :: basic_tokenize_aux fuel rest instr indata inrem
    else if indata then
      if c = 58 then c :: basic_tokenize_aux fuel rest instr false inrem
      else c :: basic_tokenize_aux fuel rest instr indata inrem
    else if c = 32 then c :: basic_tokenize_aux fuel rest instr indata inrem
    else if c = 58 then c :: basic_tokenize_aux fuel rest instr indata inrem
    else
      match findReserved (c :: rest) with
      | some (w, tok) =>
          -- the table holds no empty word, so dropping `w.length` bytes
          -- from `c :: rest` is dropping `w.length - 1` from `rest`
          tok :: basic_tokenize_aux fuel (rest.drop (w.length - 1))
                   instr (tok == TOK_DATA) (tok == TOK_REM)
      | none => TOUPPER c :: basic_tokenize_aux fuel rest instr indata inrem

/-- Function `basic_tokenize` from tokenizer.c: crunch a source line to
token bytes (the returned `out_len` is the length of the result). -/
def basic_tokenize (line : List Nat) : List Nat :=
  basic_tokenize_aux line.length line false false false

/-- Body of `basic_detokenize` (tokenizer.c): expand token bytes to
their canonical spelling, tracking only the in-string mode. -/
def basic_detokenize_aux : List Nat → Bool → List Nat
  | [], _ => []
  | c :: rest, instr =>
    if c = 0 then []
    else if c = 34 then 34 :: basic_detokenize_aux rest (!instr)
    else if instr then c :: basic_detokenize_aux rest instr
    else if IS_TOKEN c then
      (match token_strings.get? (c - 128) with
       | some w => w
       | none => [63]) ++ basic_detokenize_aux rest instr
    else c :: basic_detokenize_aux rest instr

/-- Function `basic_detokenize` from tokenizer.c. -/
def basic_detokenize (l : List Nat) : List Nat := basic_detokenize_aux l false

/-- Modelled from the spec (§4.1, §8 round-trip law): the canonical form
of an accepted source line.  Characters inside double-quoted strings,
after `REM`, and in `DATA` payloads are preserved; outside those regions
letters are uppercased and each reserved word is replaced by its
canonical spelling (the spelling in the reserved-word table). -/
def spec_canonical_aux : Nat → List Nat → Bool → Bool → Bool → List Nat
  | 0, _, _, _, _ => []
  | _ + 1, [], _, _, _ => []
  | fuel + 1, c :: rest, instr, indata, inrem =>
    if c = 0 then []
    else if c = 34 then 34 :: spec_canonical_aux fuel rest (!instr) indata inrem
    else if instr then c :: spec_canonical_aux fuel rest instr indata inrem
    else if inrem then c :: spec_canonical_aux fuel rest instr indata inrem
    else if indata then
      if c = 58 then c :: spec_canonical_aux fuel rest instr false inrem
      else c :: spec_canonical_aux fuel rest instr indata inrem
    else if c = 32 then c :: spec_canonical_aux fuel rest instr indata inrem
    else if c = 58 then c :: spec_canonical_aux fuel rest instr indata inrem
    else
      match findReserved (c :: rest) with
      | some (w, tok) =>
          w ++ spec_canonical_aux fuel (rest.drop (w.length - 1))
                 instr (tok == TOK_DATA) (tok == TOK_REM)
      | none => TOUPPER c :: spec_canonical_aux fuel rest instr indata inrem

/-- Modelled from the spec: canonical text of a whole source line. -/
def spec_canonical (line : List Nat) : List Nat :=
  spec_canonical_aux line.length line false false false

/- ===================================================================
Interpreter data model (include/basic.h, shallowly embedded)
=================================================================== -/

/- ===================================================================
Exact numeric model of the C double
=================================================================== -/

/-- Exact-rational model of the C `double`: an integer numerator over a
positive denominator, not necessarily in lowest terms (Lean's `ℚ`
normalizes through `Nat.gcd`, which the kernel cannot evaluate; this
self-contained type computes by `decide`).  Every claim below only
exercises values on which double arithmetic is exact (small integers),
where this model agrees bit-for-bit with the C code; infinities, NaNs
and rounding are outside the embedded fragment. -/
structure Q where
  n : Int
  d : Nat
  deriving DecidableEq, Repr

instance (k : Nat) : OfNat Q k := ⟨⟨k, 1⟩⟩

/-- Injection of an integer value. -/
def Q.ofInt (i : Int) : Q := ⟨i, 1⟩

/-- Double addition. -/
def Q.add (a b : Q) : Q := ⟨a.n * b.d + b.n * a.d, a.d * b.d⟩

/-- Double subtraction. -/
def Q.sub (a b : Q) : Q := ⟨a.n * b.d - b.n * a.d, a.d * b.d⟩

/-- Double multiplication. -/
def Q.mul (a b : Q) : Q := ⟨a.n * b.n, a.d * b.d⟩

/-- Double negation. -/
def Q.neg (a : Q) : Q := ⟨-a.n, a.d⟩

/-- Double division (callers guard against a zero divisor, as the C
code does before every `/`). -/
def Q.div (a b : Q) : Q :=
  if b.n < 0 then ⟨-(a.n * b.d), a.d * b.n.natAbs⟩ else ⟨a.n * b.d, a.d * b.n.natAbs⟩

/-- Value equality (`==` on doubles); denominators are positive, so
cross multiplication decides it. -/
def Q.beq (a b : Q) : Bool := a.n * b.d == b.n * a.d

/-- Value order (`<` on doubles). -/
def Q.blt (a b : Q) : Bool := a.n * b.d < b.n * a.d

/-- Value order (`<=` on doubles). -/
def Q.ble (a b : Q) : Bool := a.n * b.d ≤ b.n * a.d

/-- Library `floor` on the exact model (`Int.fdiv` rounds toward
negative infinity). -/
def Q.floorI (a : Q) : Int := Int.fdiv a.n a.d

/-- C cast `(int)`/`(int32_t)` of a double: truncation toward zero
(`Int.tdiv`).  An out-of-range double would be undefined behavior in C;
the cast sites exercised here stay in range. -/
def Q.trunc (a : Q) : Int := Int.tdiv a.n a.d

/-- Test `floor(x) == x`, i.e. the double holds an integer. -/
def Q.isInt (a : Q) : Bool := Q.beq ⟨Q.floorI a, 1⟩ a

/-- Power with integer exponent (`pow` is exact there on the inputs
exercised by the claims). -/
def Q.zpow (a : Q) (e : Int) : Q :=
  if 0 ≤ e then ⟨a.n ^ e.toNat, a.d ^ e.toNat⟩
  else
    let k := (-e).toNat
    if a.n ^ k < 0 then ⟨-(a.d ^ k : Int), (a.n ^ k).natAbs⟩
    else ⟨(a.d ^ k : Int), (a.n ^ k).natAbs⟩

/-- Fixed-width bitwise combination used to model C `int32_t` bitwise
operators (written out by binary recursion because the kernel cannot
evaluate `Nat.bitwise`). -/
def bitOp32 (f : Bool → Bool → Bool) : Nat → Nat → Nat → Nat
  | 0, _, _ => 0
  | k + 1, a, b =>
    (if f (a % 2 == 1) (b % 2 == 1) then 1 else 0) + 2 * bitOp32 f k (a / 2) (b / 2)

/-- Two's-complement view of an `int32_t`. -/
def toU32 (i : Int) : Nat := (i % 4294967296).toNat

/-- Signed view of a 32-bit word. -/
def fromU32 (u : Nat) : Int := if u < 2147483648 then u else (u : Int) - 4294967296

/-- C `|` on `int32_t` (operands obtained by the double cast). -/
def i32or (a b : Int) : Int := fromU32 (bitOp32 (fun x y => x || y) 32 (toU32 a) (toU32 b))

/-- C `&` on `int32_t`. -/
def i32and (a b : Int) : Int := fromU32 (bitOp32 (fun x y => x && y) 32 (toU32 a) (toU32 b))

/-- C `~` on `int32_t` (two's complement: `~v = -v - 1`). -/
def i32not (a : Int) : Int := -a - 1

/-- Error codes, enum `ErrorCode` of `include/basic.h`. -/
inductive ErrorCode where
  | ERR_NONE | ERR_NF | ERR_SN | ERR_RG | ERR_OD | ERR_FC | ERR_OV
  | ERR_OM | ERR_US | ERR_BS | ERR_DD | ERR_DZ | ERR_ID | ERR_TM
  | ERR_LS | ERR_FD | ERR_ST | ERR_CN | ERR_UF | ERR_BREAK
  deriving DecidableEq, Repr

/-- Runtime values.  The C `Value` union carries `VAL_NUMBER` (double),
`VAL_STRING` (descriptor) or `VAL_INTEGER`; nothing in the sources ever
constructs a `VAL_INTEGER`, so the embedded type has two constructors.
Doubles become exact rationals; string descriptors become their byte
lists (the string heap's arena bookkeeping and the `is_temp` flag have
no observable effect on the claims checked here). -/
inductive Val where
  | num (q : Q)
  | str (s : List Nat)
  deriving DecidableEq, Repr

/-- Reading the numeric member of the value union (`get_numeric`); on a
string value C would read reinterpreted bits, but every use is guarded
by an `is_numeric` check, so the junk result 0 is never observable. -/
def get_numeric : Val → Q
  | Val.num q => q
  | Val.str _ => 0

/-- Predicate `is_numeric` from expression.c. -/
def is_numeric : Val → Bool
  | Val.num _ => true
  | Val.str _ => false

/-- Normalized variable name, struct `VariableName`: the first two
significant characters (uppercased, space padded) plus type markers. -/
structure VariableName where
  n0 : Nat
  n1 : Nat
  isString : Bool
  isInteger : Bool
  deriving DecidableEq, Repr

/-- Function `parse_var_name` from variables.c. -/
def parse_var_name (raw : List Nat) : VariableName :=
  let core := match raw.getLast? with
    | some 36 => raw.dropLast
    | some 37 => raw.dropLast
    | _ => raw
  { n0 := TOUPPER (core.headD 32)
  , n1 := TOUPPER (core.getD 1 32)
  , isString := raw.getLast? = some 36
  , isInteger := raw.getLast? = some 37 }

/-- Simple variable entry, struct `Variable` (the `next` pointer becomes
the list structure of `BasicState.vars`). -/
structure Variable where
  name : VariableName
  value : Val
  deriving DecidableEq, Repr

/-- Array entry, struct `Array` of basic.h.  `dims` holds the stored
sizes (`subscript_max + 1` each) and `data` the row-major elements. -/
structure BasicArray where
  name : VariableName
  num_dims : Nat
  dims : List Nat
  data : List Val
  deriving DecidableEq, Repr

/-- Program line, struct `ProgramLine` (`text` is the tokenized body;
its stored `length` is `text.length`). -/
structure ProgramLine where
  line_number : Int
  text : List Nat
  deriving DecidableEq, Repr

/-- FOR-loop stack entry, struct `ForLoopEntry`.  The `loop_var`
pointer is represented by the variable's normalized name (names are
unique in the variable list, so pointer equality coincides with name
equality); the captured `text_ptr` is the remaining-byte suffix and the
captured `line` pointer the program-list suffix. -/
structure ForLoopEntry where
  loop_var : VariableName
  step : Q
  limit : Q
  line_number : Int
  text_ptr : List Nat
  line : Option (List ProgramLine)
  deriving DecidableEq, Repr

/-- GOSUB stack entry, struct `GosubEntry`. -/
structure GosubEntry where
  line_number : Int
  text_ptr : List Nat
  deriving DecidableEq, Repr

/-- Runtime stack entry, struct `StackEntry` (the `STACK_EXPR` tag is
never stored by the sources). -/
inductive StackEntry where
  | forE (e : ForLoopEntry)
  | gosubE (e : GosubEntry)
  deriving DecidableEq, Repr

/-- Interpreter state, struct `BasicState`, restricted to the fields
the embedded fragment reads or writes.  `current_line` is the suffix of
`program` headed by the executing line (`none` = NULL); `text_ptr` is
the list of bytes from the cursor to the end of the current buffer; the
runtime stack has its top at the head (`stack_ptr` is its length).
String heap, FAC/ARG accumulators, DATA cursor, user functions,
terminal and PEEK/POKE memory are not touched by the claims below; the
RND seed lives outside (see `basic_fn_rnd`). -/
structure BasicState where
  program : List ProgramLine
  current_line : Option (List ProgramLine)
  text_ptr : List Nat
  -- the C field is `variables`; that word is a reserved command name in Lean
  vars : List Variable
  arrays : List BasicArray
  stack : List StackEntry
  stack_size : Nat
  running : Bool
  direct_mode : Bool
  current_line_num : Int
  can_continue : Bool
  deriving DecidableEq, Repr

/-- State produced by `basic_init` (fields of the embedded fragment). -/
def basic_init : BasicState :=
  { program := [], current_line := none, text_ptr := [], vars := []
  , arrays := [], stack := [], stack_size := 512, running := false
  , direct_mode := true, current_line_num := 0, can_continue := false }

/- ===================================================================
Cursor helpers (tokenizer.c)
=================================================================== -/

/-- Function `basic_peek_char`: next character skipping spaces (only
0x20), without advancing; reading at the end yields the NUL 0. -/
def peekCharL (l : List Nat) : Nat := ((l.dropWhile (fun c => c == 32)).headD 0)

/-- Function `basic_peek_char` on the state. -/
def basic_peek_char (st : BasicState) : Nat := peekCharL st.text_ptr

/-- Function `basic_skip_spaces`: advance over spaces and tabs. -/
def skipSpacesL (l : List Nat) : List Nat := l.dropWhile (fun c => c == 32 || c == 9)

/-- Function `basic_skip_spaces` on the state. -/
def basic_skip_spaces (st : BasicState) : BasicState :=
  { st with text_ptr := skipSpacesL st.text_ptr }

/-- Reading `state->text_ptr[i]`; past the end of the buffer this is
the NUL terminator. -/
def txt (st : BasicState) (i : Nat) : Nat := st.text_ptr.getD i 0

/-- Advancing `state->text_ptr` by `n` bytes. -/
def adv (st : BasicState) (n : Nat) : BasicState :=
  { st with text_ptr := st.text_ptr.drop n }

/- ===================================================================
Variables and arrays (variables.c)
=================================================================== -/

/-- Function `var_names_equal` from variables.c. -/
def var_names_equal (a b : VariableName) : Bool :=
  a.n0 == b.n0 && a.n1 == b.n1 && a.isString == b.isString && a.isInteger == b.isInteger

/-- Function `basic_get_variable`: first list entry with a matching
normalized name (the pointer result is the entry itself). -/
def basic_get_variable (st : BasicState) (name : List Nat) : Option Variable :=
  st.vars.find? (fun v => var_names_equal v.name (parse_var_name name))

/-- Function `basic_create_variable`: prepend a fresh variable
initialized to 0 or the empty string (the `malloc` failure path is not
modelled: allocation always succeeds in the embedding). -/
def basic_create_variable (st : BasicState) (name : List Nat) : Variable × BasicState :=
  let parsed := parse_var_name name
  let v : Variable :=
    { name := parsed
    , value := if parsed.isString then Val.str [] else Val.num 0 }
  (v, { st with vars := v :: st.vars })

/-- Updating the `Value` stored behind a `Variable *`: rewrite the
unique list entry with that name. -/
def writeVar (st : BasicState) (nm : VariableName) (val : Val) : BasicState :=
  { st with vars :=
      st.vars.map (fun v => if var_names_equal v.name nm then { v with value := val } else v) }

/-- Reading the numeric value behind a `Variable *` (dangling pointers
do not occur in the states exercised here). -/
def readVarNum (st : BasicState) (nm : VariableName) : Q :=
  match st.vars.find? (fun v => var_names_equal v.name nm) with
  | some v => get_numeric v.value
  | none => 0

/-- Test `value->type == VAL_STRING`. -/
def is_string_val : Val → Bool
  | Val.str _ => true
  | Val.num _ => false

/-- Function `basic_set_variable` from variables.c. -/
def basic_set_variable (st : BasicState) (name : List Nat) (val : Val) :
    ErrorCode × BasicState :=
  let (v, st) :=
    match basic_get_variable st name with
    | some v => (v, st)
    | none => basic_create_variable st name
  if v.name.isString && !(is_string_val val) then (ErrorCode.ERR_TM, st)
  else if !v.name.isString && is_string_val val then (ErrorCode.ERR_TM, st)
  else (ErrorCode.ERR_NONE, writeVar st v.name val)

/-- Function `basic_get_array`. -/
def basic_get_array (st : BasicState) (name : List Nat) : Option BasicArray :=
  st.arrays.find? (fun a => var_names_equal a.name (parse_var_name name))

/-- Constant `BASIC_ARRAY_DIMS`. -/
def BASIC_ARRAY_DIMS : Nat := 11

/-- Function `basic_dim_array` from variables.c: create an array whose
per-dimension size is `subscript_max + 1`, elements zero/empty
initialized; an existing array of the same name is `ERR_DD`. -/
def basic_dim_array (st : BasicState) (name : List Nat) (dims : List Int) :
    ErrorCode × BasicState :=
  if dims.length < 1 ∨ dims.length > BASIC_ARRAY_DIMS then (ErrorCode.ERR_FC, st)
  else if (basic_get_array st name).isSome then (ErrorCode.ERR_DD, st)
  else if dims.any (fun d => d < 0 ∨ d > 32767) then (ErrorCode.ERR_FC, st)
  else
    let parsed := parse_var_name name
    let sizes := dims.map (fun d => d.toNat + 1)
    let total := sizes.foldl (· * ·) 1
    let a : BasicArray :=
      { name := parsed
      , num_dims := dims.length
      , dims := sizes
      , data := List.replicate total (if parsed.isString then Val.str [] else Val.num 0) }
    (ErrorCode.ERR_NONE, { st with arrays := a :: st.arrays })

/-- Function `array_index` from variables.c: row-major linear index,
scanning dimensions from the last to the first; `none` is `ERR_BS`. -/
def array_index_aux : List (Int × Nat) → Nat → Nat → Option Nat
  | [], idx, _ => some idx
  | (i, sz) :: rest, idx, mult =>
    if i < 0 ∨ i ≥ (sz : Int) then none
    else array_index_aux rest (idx + i.toNat * mult) (mult * sz)

/-- Function `array_index` (entry point). -/
def array_index (arr : BasicArray) (indices : List Int) : Option Nat :=
  array_index_aux ((indices.zip arr.dims).reverse) 0 1

/-- Function `basic_get_array_element`. -/
def basic_get_array_element (arr : BasicArray) (indices : List Int) : ErrorCode × Val :=
  match array_index arr indices with
  | none => (ErrorCode.ERR_BS, Val.num 0)
  | some idx => (ErrorCode.ERR_NONE, arr.data.getD idx (Val.num 0))

/-- Rewriting the unique array entry with a given name. -/
def writeArr (st : BasicState) (nm : VariableName) (a : BasicArray) : BasicState :=
  { st with arrays := st.arrays.map (fun b => if var_names_equal b.name nm then a else b) }

/-- Function `basic_set_array_element`. -/
def basic_set_array_element (st : BasicState) (arr : BasicArray) (indices : List Int)
    (val : Val) : ErrorCode × BasicState :=
  if arr.name.isString && !(is_string_val val) then (ErrorCode.ERR_TM, st)
  else if !arr.name.isString && is_string_val val then (ErrorCode.ERR_TM, st)
  else
    match array_index arr indices with
    | none => (ErrorCode.ERR_BS, st)
    | some idx =>
      (ErrorCode.ERR_NONE, writeArr st arr.name { arr with data := arr.data.set idx val })

/-- Function `basic_clear_variables` from variables.c (the string arena
and DATA cursor resets have no counterpart in the embedded state). -/
def basic_clear_variables (st : BasicState) : BasicState :=
  { st with vars := [], arrays := [] }

/- ===================================================================
Program line management (interpreter.c)
=================================================================== -/

/-- Constant `BASIC_LINE_NUM_MAX`. -/
def BASIC_LINE_NUM_MAX : Int := 63999

/-- Function `basic_find_line` from interpreter.c: scan the (sorted)
program list; the scan gives up as soon as it passes a larger line
number.  The result pointer is the program suffix headed by the line. -/
def find_line_aux : List ProgramLine → Int → Option (List ProgramLine)
  | [], _ => none
  | l :: rest, n =>
    if l.line_number = n then some (l :: rest)
    else if l.line_number > n then none
    else find_line_aux rest n

/-- Function `basic_find_line` on the state. -/
def basic_find_line (st : BasicState) (n : Int) : Option (List ProgramLine) :=
  find_line_aux st.program n

/-- Fallback scan of `basic_goto_line`: first stored line with number
at least `n` (the code comment reads "Try to find next line >=
line_num"). -/
def goto_scan : List ProgramLine → Int → Option (List ProgramLine)
  | [], _ => none
  | l :: rest, n =>
    if l.line_number < n then goto_scan rest n else some (l :: rest)

/-- Function `basic_goto_line` from interpreter.c: jump to line `n`,
or, when absent, to the next stored line with a larger number; when no
such line exists the current line becomes NULL (here `none`), the
current line number 0 and the text pointer NULL (here the empty
buffer). -/
def basic_goto_line (st : BasicState) (n : Int) : BasicState :=
  let line? :=
    match basic_find_line st n with
    | some s => some s
    | none => goto_scan st.program n
  match line? with
  | some (l :: rest) =>
    { st with current_line := some (l :: rest), current_line_num := l.line_number
            , text_ptr := l.text }
  | _ =>
    { st with current_line := none, current_line_num := 0, text_ptr := [] }

/-- Deletion scan of `basic_delete_line` (also gives up once past the
number, relying on sortedness). -/
def delete_line_aux : List ProgramLine → Int → List ProgramLine
  | [], _ => []
  | l :: rest, n =>
    if l.line_number = n then rest
    else if l.line_number > n then l :: rest
    else l :: delete_line_aux rest n

/-- Function `basic_delete_line` from interpreter.c.  It does not touch
`can_continue`. -/
def basic_delete_line (st : BasicState) (n : Int) : BasicState :=
  { st with program := delete_line_aux st.program n }

/-- Sorted insertion of `basic_store_line` (the `pp` walk advances
while the stored number is `<` the new one). -/
def insert_line : List ProgramLine → ProgramLine → List ProgramLine
  | [], nl => [nl]
  | l :: rest, nl =>
    if l.line_number < nl.line_number then l :: insert_line rest nl
    else nl :: l :: rest

/-- Leading line-number parse of `basic_store_line`: consume decimal
digits, failing once the accumulated number exceeds
`BASIC_LINE_NUM_MAX`.  Returns the number and the rest of the text. -/
def parse_line_number : List Nat → Int → Option (Int × List Nat)
  | [], n => some (n, [])
  | c :: rest, n =>
    if IS_DIGIT c then
      let n' := n * 10 + ((c : Int) - 48)
      if n' > BASIC_LINE_NUM_MAX then none else parse_line_number rest n'
    else some (n, c :: rest)

/-- Space skipping with `while (*line == ' ') line++` (spaces only, no
tabs), as used by `basic_store_line` and `basic_execute_line`. -/
def skipSpacesOnly (l : List Nat) : List Nat := l.dropWhile (fun c => c == 32)

/-- Tokenize-and-insert path of `basic_store_line` (everything after
the empty-body check): tokenize the body, delete any line with the same
number, insert the new line in sorted order and invalidate CONT. -/
def store_line_insert (st : BasicState) (line_num : Int) (body : List Nat) : BasicState :=
  let tokenized := basic_tokenize body
  let st := basic_delete_line st line_num
  { st with program := insert_line st.program { line_number := line_num, text := tokenized }
          , can_continue := false }

/-- Function `basic_store_line` from interpreter.c. -/
def basic_store_line (st : BasicState) (line : List Nat) : Bool × BasicState :=
  let line := skipSpacesOnly line
  if ¬ IS_DIGIT (line.headD 0) then (false, st)
  else
    match parse_line_number line 0 with
    | none => (false, st)
    | some (line_num, rest) =>
      let rest := skipSpacesOnly rest
      -- "If nothing after line number, delete the line"
      if rest.headD 0 = 0 ∨ rest.headD 0 = 10 then
        (true, basic_delete_line st line_num)
      else
        (true, store_line_insert st line_num rest)

/-- Function `basic_new` from interpreter.c. -/
def basic_new (st : BasicState) : BasicState :=
  let st := { st with program := [] }
  let st := basic_clear_variables st
  { st with current_line := none, current_line_num := 0, text_ptr := []
          , running := false, can_continue := false, stack := [] }


/- ===================================================================
Expression evaluator (expression.c)
=================================================================== -/

/-- Result of an evaluator call: the returned `ErrorCode`, the value
written through the out parameter (the placeholder `Val.num 0` stands
for the untouched out parameter on error paths, which no caller reads),
and the mutated state.  `none` means the computation left the embedded
fragment (built-in function calls, `FN`, non-integer exponents) or ran
out of fuel. -/
abbrev ERes (α : Type) := Option (ErrorCode × α × BasicState)

/-- Identifier-collection loop shared by `parse_variable`,
`parse_lvalue`, `stmt_for` and `stmt_next`: gather uppercased name
characters while the next non-space character is a letter or digit.
Note the C loops test `basic_peek_char` (which skips spaces) but append
`*text_ptr` (which may be a space); the name buffer keeps at most 31
characters. -/
def scan_name : List Nat → List Nat → List Nat × List Nat
  | [], acc => (acc, [])
  | c :: rest, acc =>
    if IS_LETTER (peekCharL (c :: rest)) || IS_DIGIT (peekCharL (c :: rest)) then
      scan_name rest (if acc.length < 31 then acc ++ [TOUPPER c] else acc)
    else (acc, c :: rest)

/-- String comparison of `eval_comparison`: first differing byte
(unsigned difference), length difference as tiebreaker. -/
def strCmp : List Nat → List Nat → Int
  | [], [] => 0
  | [], b => -(b.length : Int)
  | a, [] => (a.length : Int)
  | x :: a, y :: b => if x ≠ y then (x : Int) - (y : Int) else strCmp a b

/-- Character-collection loop of `parse_number`: digits, one decimal
point, one exponent marker with optional sign; the buffer holds at most
63 characters.  The loop peeks past spaces but advances byte-wise, as
the C code does.  Fuel `text.length + 1` always suffices. -/
def parse_number_aux : Nat → List Nat → List Nat → Bool → Bool → Bool →
    List Nat × List Nat × Bool
  | 0, text, acc, has_digit, _, _ => (acc, text, has_digit)
  | fuel + 1, text, acc, has_digit, has_dec, has_exp =>
    if acc.length ≥ 63 then (acc, text, has_digit)
    else
      let c := peekCharL text
      if IS_DIGIT c then
        parse_number_aux fuel text.tail (acc ++ [c]) true has_dec has_exp
      else if c = 46 ∧ ¬ has_dec ∧ ¬ has_exp then
        parse_number_aux fuel text.tail (acc ++ [c]) has_digit true has_exp
      else if (c = 69 ∨ c = 101) ∧ ¬ has_exp ∧ has_digit then
        let text := text.tail
        let c2 := peekCharL text
        if c2 = 43 ∨ c2 = 45 then
          parse_number_aux fuel text.tail (acc ++ [69, c2]) has_digit has_dec true
        else parse_number_aux fuel text (acc ++ [69]) has_digit has_dec true
      else (acc, text, has_digit)

/-- Digit run to a natural number (helper for the `strtod` model). -/
def readDigits : List Nat → Nat → Nat × List Nat
  | [], acc => (acc, [])
  | c :: rest, acc =>
    if IS_DIGIT c then readDigits rest (acc * 10 + (c - 48)) else (acc, c :: rest)

/-- Digit run with digit count (for the fraction part). -/
def readDigitsCount : List Nat → Nat → Nat → Nat × Nat × List Nat
  | [], acc, k => (acc, k, [])
  | c :: rest, acc, k =>
    if IS_DIGIT c then readDigitsCount rest (acc * 10 + (c - 48)) (k + 1)
    else (acc, k, c :: rest)

/-- Library `strtod` on the collected buffer, modelled as the exact
value of the decimal literal (exact for every literal the claims
evaluate; `ERANGE` cannot occur in the exact model). -/
def strtodQ (buf : List Nat) : Q :=
  let (ip, r1) := readDigits buf 0
  let (fp, fd, r2) :=
    match r1 with
    | 46 :: t => readDigitsCount t 0 0
    | _ => (0, 0, r1)
  let (eneg, r3) :=
    match r2 with
    | 69 :: 45 :: t => (true, t)
    | 69 :: 43 :: t => (false, t)
    | 69 :: t => (false, t)
    | _ => (false, r2)
  let (ev, _) := readDigits r3 0
  if eneg then ⟨(ip * 10 ^ fd + fp : Int), 10 ^ fd * 10 ^ ev⟩
  else ⟨(ip * 10 ^ fd + fp : Int) * 10 ^ ev, 10 ^ fd⟩

/-- Function `parse_number` from expression.c. -/
def parse_number (st : BasicState) : ErrorCode × Q × BasicState :=
  let (buf, text, has_digit) :=
    parse_number_aux (st.text_ptr.length + 1) st.text_ptr [] false false false
  let st := { st with text_ptr := text }
  if ¬ has_digit then (ErrorCode.ERR_SN, 0, st)
  else (ErrorCode.ERR_NONE, strtodQ buf, st)

/-- Constant `BASIC_STRING_MAX`. -/
def BASIC_STRING_MAX : Nat := 255

/-- Function `parse_string_literal` from expression.c. -/
def parse_string_literal (st : BasicState) : ErrorCode × Val × BasicState :=
  if basic_peek_char st ≠ 34 then (ErrorCode.ERR_SN, Val.num 0, st)
  else
    let st := adv st 1
    let content := st.text_ptr.takeWhile (fun c => !(c == 34 || c == 0 || c == 10))
    let st := adv st content.length
    if content.length > BASIC_STRING_MAX then (ErrorCode.ERR_LS, Val.num 0, st)
    else
      let st := if txt st 0 = 34 then adv st 1 else st
      (ErrorCode.ERR_NONE, Val.str content, st)

/-- Macro `BASIC_IS_FUNCTION`. -/
def BASIC_IS_FUNCTION (t : Nat) : Bool := TOK_SGN ≤ t && t ≤ TOK_MID

mutual

/-- Function `basic_evaluate` (FRMEVL). -/
def basic_evaluate : Nat → BasicState → ERes Val
  | 0, _ => none
  | fuel + 1, st => eval_expression fuel (basic_skip_spaces st)

/-- Function `basic_eval_numeric`. -/
def basic_eval_numeric : Nat → BasicState → ERes Q
  | 0, _ => none
  | fuel + 1, st =>
    match basic_evaluate fuel st with
    | none => none
    | some (err, v, st) =>
      if err ≠ ErrorCode.ERR_NONE then some (err, 0, st)
      else if ¬ is_numeric v then some (ErrorCode.ERR_TM, 0, st)
      else some (ErrorCode.ERR_NONE, get_numeric v, st)

/-- Function `eval_expression`. -/
def eval_expression : Nat → BasicState → ERes Val
  | 0, _ => none
  | fuel + 1, st => eval_or fuel st

/-- Function `eval_or` (head and loop). -/
def eval_or : Nat → BasicState → ERes Val
  | 0, _ => none
  | fuel + 1, st =>
    match eval_and fuel st with
    | none => none
    | some (err, v, st) =>
      if err ≠ ErrorCode.ERR_NONE then some (err, v, st)
      else eval_or_loop fuel v (basic_skip_spaces st)

/-- While loop of `eval_or`. -/
def eval_or_loop : Nat → Val → BasicState → ERes Val
  | 0, _, _ => none
  | fuel + 1, v, st =>
    if basic_peek_char st = TOK_OR ∨ (TOUPPER (txt st 0) = 79 ∧ TOUPPER (txt st 1) = 82) then
      let st := if basic_peek_char st = TOK_OR then adv st 1 else adv st 2
      if ¬ is_numeric v then some (ErrorCode.ERR_TM, v, st)
      else
        match eval_and fuel st with
        | none => none
        | some (err, r, st) =>
          if err ≠ ErrorCode.ERR_NONE then some (err, v, st)
          else if ¬ is_numeric r then some (ErrorCode.ERR_TM, v, st)
          else
            let res := Val.num (Q.ofInt (i32or (Q.trunc (get_numeric v)) (Q.trunc (get_numeric r))))
            eval_or_loop fuel res (basic_skip_spaces st)
    else some (ErrorCode.ERR_NONE, v, st)

/-- Function `eval_and` (head and loop). -/
def eval_and : Nat → BasicState → ERes Val
  | 0, _ => none
  | fuel + 1, st =>
    match eval_not fuel st with
    | none => none
    | some (err, v, st) =>
      if err ≠ ErrorCode.ERR_NONE then some (err, v, st)
      else eval_and_loop fuel v (basic_skip_spaces st)

/-- While loop of `eval_and`. -/
def eval_and_loop : Nat → Val → BasicState → ERes Val
  | 0, _, _ => none
  | fuel + 1, v, st =>
    if basic_peek_char st = TOK_AND ∨
        (TOUPPER (txt st 0) = 65 ∧ TOUPPER (txt st 1) = 78 ∧ TOUPPER (txt st 2) = 68) then
      let st := if basic_peek_char st = TOK_AND then adv st 1 else adv st 3
      if ¬ is_numeric v then some (ErrorCode.ERR_TM, v, st)
      else
        match eval_not fuel st with
        | none => none
        | some (err, r, st) =>
          if err ≠ ErrorCode.ERR_NONE then some (err, v, st)
          else if ¬ is_numeric r then some (ErrorCode.ERR_TM, v, st)
          else
            let res := Val.num (Q.ofInt (i32and (Q.trunc (get_numeric v)) (Q.trunc (get_numeric r))))
            eval_and_loop fuel res (basic_skip_spaces st)
    else some (ErrorCode.ERR_NONE, v, st)

/-- Function `eval_not`. -/
def eval_not : Nat → BasicState → ERes Val
  | 0, _ => none
  | fuel + 1, st =>
    let st := basic_skip_spaces st
    if basic_peek_char st = TOK_NOT ∨
        (TOUPPER (txt st 0) = 78 ∧ TOUPPER (txt st 1) = 79 ∧ TOUPPER (txt st 2) = 84) then
      let st := if basic_peek_char st = TOK_NOT then adv st 1 else adv st 3
      match eval_not fuel st with
      | none => none
      | some (err, v, st) =>
        if err ≠ ErrorCode.ERR_NONE then some (err, v, st)
        else if ¬ is_numeric v then some (ErrorCode.ERR_TM, v, st)
        else some (ErrorCode.ERR_NONE, Val.num (Q.ofInt (i32not (Q.trunc (get_numeric v)))), st)
    else eval_comparison fuel st

/-- Function `eval_comparison` (head and loop). -/
def eval_comparison : Nat → BasicState → ERes Val
  | 0, _ => none
  | fuel + 1, st =>
    match eval_additive fuel st with
    | none => none
    | some (err, v, st) =>
      if err ≠ ErrorCode.ERR_NONE then some (err, v, st)
      else eval_cmp_loop fuel v (basic_skip_spaces st)

/-- While loop of `eval_comparison`; comparison kind bits: 1 = less,
2 = equal, 4 = greater (any two-character combination accepted). -/
def eval_cmp_loop : Nat → Val → BasicState → ERes Val
  | 0, _, _ => none
  | fuel + 1, v, st =>
    let c := basic_peek_char st
    let (op, st) : Nat × BasicState :=
      if c = 60 ∨ c = TOK_LT then
        let st := adv st 1
        let c2 := basic_peek_char st
        if c2 = 62 ∨ c2 = TOK_GT then (5, adv st 1)
        else if c2 = 61 ∨ c2 = TOK_EQ then (3, adv st 1)
        else (1, st)
      else if c = 62 ∨ c = TOK_GT then
        let st := adv st 1
        let c2 := basic_peek_char st
        if c2 = 61 ∨ c2 = TOK_EQ then (6, adv st 1)
        else if c2 = 60 ∨ c2 = TOK_LT then (5, adv st 1)
        else (4, st)
      else if c = 61 ∨ c = TOK_EQ then
        let st := adv st 1
        let c2 := basic_peek_char st
        if c2 = 60 ∨ c2 = TOK_LT then (3, adv st 1)
        else if c2 = 62 ∨ c2 = TOK_GT then (6, adv st 1)
        else (2, st)
      else (0, st)
    if op = 0 then some (ErrorCode.ERR_NONE, v, st)
    else
      match eval_additive fuel st with
      | none => none
      | some (err, r, st) =>
        if err ≠ ErrorCode.ERR_NONE then some (err, v, st)
        else
          let cmp? : Option Int :=
            match v, r with
            | Val.str a, Val.str b => some (strCmp a b)
            | Val.num a, Val.num b =>
              some (if Q.blt a b then -1 else if Q.blt b a then 1 else 0)
            | _, _ => none
          match cmp? with
          | none => some (ErrorCode.ERR_TM, v, st)
          | some cmp =>
            let is_true := (op % 2 = 1 ∧ cmp < 0) ∨ (op / 2 % 2 = 1 ∧ cmp = 0) ∨
              (op / 4 = 1 ∧ cmp > 0)
            let res := Val.num (if is_true then ⟨-1, 1⟩ else ⟨0, 1⟩)
            eval_cmp_loop fuel res (basic_skip_spaces st)

/-- Function `eval_additive` (head and loop). -/
def eval_additive : Nat → BasicState → ERes Val
  | 0, _ => none
  | fuel + 1, st =>
    match eval_multiplicative fuel st with
    | none => none
    | some (err, v, st) =>
      if err ≠ ErrorCode.ERR_NONE then some (err, v, st)
      else eval_add_loop fuel v (basic_skip_spaces st)

/-- While loop of `eval_additive`: numeric addition or subtraction, or
string concatenation; the result of a sum that would leave the finite
double range is outside the exact model (`ERR_OV` cannot fire here). -/
def eval_add_loop : Nat → Val → BasicState → ERes Val
  | 0, _, _ => none
  | fuel + 1, v, st =>
    let c := basic_peek_char st
    let is_add := c = 43 ∨ c = TOK_PLUS
    let is_sub := c = 45 ∨ c = TOK_MINUS
    if ¬ is_add ∧ ¬ is_sub then some (ErrorCode.ERR_NONE, v, st)
    else
      let st := adv st 1
      match v with
      | Val.str a =>
        if is_add then
          match eval_multiplicative fuel st with
          | none => none
          | some (err, r, st) =>
            if err ≠ ErrorCode.ERR_NONE then some (err, v, st)
            else
              match r with
              | Val.str b =>
                if a.length + b.length > BASIC_STRING_MAX then
                  some (ErrorCode.ERR_LS, v, st)
                else eval_add_loop fuel (Val.str (a ++ b)) (basic_skip_spaces st)
              | _ => some (ErrorCode.ERR_TM, v, st)
        else some (ErrorCode.ERR_TM, v, st)
      | Val.num l =>
        match eval_multiplicative fuel st with
        | none => none
        | some (err, r, st) =>
          if err ≠ ErrorCode.ERR_NONE then some (err, v, st)
          else if ¬ is_numeric r then some (ErrorCode.ERR_TM, v, st)
          else
            let res := Val.num (if is_add then Q.add l (get_numeric r) else Q.sub l (get_numeric r))
            eval_add_loop fuel res (basic_skip_spaces st)

/-- Function `eval_multiplicative` (head and loop). -/
def eval_multiplicative : Nat → BasicState → ERes Val
  | 0, _ => none
  | fuel + 1, st =>
    match eval_power fuel st with
    | none => none
    | some (err, v, st) =>
      if err ≠ ErrorCode.ERR_NONE then some (err, v, st)
      else eval_mul_loop fuel v (basic_skip_spaces st)

/-- While loop of `eval_multiplicative`: `*` and `/` with the division
by zero check. -/
def eval_mul_loop : Nat → Val → BasicState → ERes Val
  | 0, _, _ => none
  | fuel + 1, v, st =>
    let c := basic_peek_char st
    let is_mult := c = 42 ∨ c = TOK_MULTIPLY
    let is_div := c = 47 ∨ c = TOK_DIVIDE
    if ¬ is_mult ∧ ¬ is_div then some (ErrorCode.ERR_NONE, v, st)
    else
      let st := adv st 1
      if ¬ is_numeric v then some (ErrorCode.ERR_TM, v, st)
      else
        match eval_power fuel st with
        | none => none
        | some (err, r, st) =>
          if err ≠ ErrorCode.ERR_NONE then some (err, v, st)
          else if ¬ is_numeric r then some (ErrorCode.ERR_TM, v, st)
          else
            let l := get_numeric v
            let rv := get_numeric r
            if is_mult then eval_mul_loop fuel (Val.num (Q.mul l rv)) (basic_skip_spaces st)
            else if Q.beq rv 0 then some (ErrorCode.ERR_DZ, v, st)
            else eval_mul_loop fuel (Val.num (Q.div l rv)) (basic_skip_spaces st)

/-- Function `eval_power`: right-associative `^`; a negative base with
a non-integer exponent is `ERR_FC`; a non-negative base with a
non-integer exponent leaves the exact fragment (`none`). -/
def eval_power : Nat → BasicState → ERes Val
  | 0, _ => none
  | fuel + 1, st =>
    match eval_unary fuel st with
    | none => none
    | some (err, v, st) =>
      if err ≠ ErrorCode.ERR_NONE then some (err, v, st)
      else
        let st := basic_skip_spaces st
        let c := basic_peek_char st
        if c = 94 ∨ c = TOK_POWER then
          let st := adv st 1
          if ¬ is_numeric v then some (ErrorCode.ERR_TM, v, st)
          else
            match eval_power fuel st with
            | none => none
            | some (err, r, st) =>
              if err ≠ ErrorCode.ERR_NONE then some (err, v, st)
              else if ¬ is_numeric r then some (ErrorCode.ERR_TM, v, st)
              else
                let base := get_numeric v
                let e := get_numeric r
                if Q.blt base 0 ∧ ¬ (Q.isInt e) then some (ErrorCode.ERR_FC, v, st)
                else if Q.isInt e then
                  some (ErrorCode.ERR_NONE, Val.num (Q.zpow base (Q.floorI e)), st)
                else none
        else some (ErrorCode.ERR_NONE, v, st)

/-- Function `eval_unary`: unary minus and plus. -/
def eval_unary : Nat → BasicState → ERes Val
  | 0, _ => none
  | fuel + 1, st =>
    let st := basic_skip_spaces st
    let c := basic_peek_char st
    if c = 45 ∨ c = TOK_MINUS then
      let st := adv st 1
      match eval_unary fuel st with
      | none => none
      | some (err, v, st) =>
        if err ≠ ErrorCode.ERR_NONE then some (err, v, st)
        else if ¬ is_numeric v then some (ErrorCode.ERR_TM, v, st)
        else some (ErrorCode.ERR_NONE, Val.num (Q.neg (get_numeric v)), st)
    else if c = 43 ∨ c = TOK_PLUS then
      let st := adv st 1
      match eval_unary fuel st with
      | none => none
      | some (err, v, st) =>
        if err ≠ ErrorCode.ERR_NONE then some (err, v, st)
        else if ¬ is_numeric v then some (ErrorCode.ERR_TM, v, st)
        else some (ErrorCode.ERR_NONE, Val.num (get_numeric v), st)
    else eval_primary fuel st

/-- Function `eval_primary`: parenthesized expressions, literals,
variables; built-in function calls (`eval_function`) and user `FN`
calls are outside the embedded fragment (`none`). -/
def eval_primary : Nat → BasicState → ERes Val
  | 0, _ => none
  | fuel + 1, st =>
    let st := basic_skip_spaces st
    let c := basic_peek_char st
    if c = 40 then
      let st := adv st 1
      match eval_expression fuel st with
      | none => none
      | some (err, v, st) =>
        if err ≠ ErrorCode.ERR_NONE then some (err, v, st)
        else
          let st := basic_skip_spaces st
          if basic_peek_char st ≠ 41 then some (ErrorCode.ERR_SN, v, st)
          else some (ErrorCode.ERR_NONE, v, adv st 1)
    else if c = 34 then
      let (err, v, st) := parse_string_literal st
      some (err, v, st)
    else if IS_DIGIT c ∨ c = 46 then
      let (err, q, st) := parse_number st
      some (err, Val.num q, st)
    else if IS_TOKEN c then
      if BASIC_IS_FUNCTION c then none
      else if c = TOK_FN then none
      else some (ErrorCode.ERR_SN, Val.num 0, st)
    else if IS_LETTER c then parse_variable fuel st
    else some (ErrorCode.ERR_SN, Val.num 0, st)

/-- Function `parse_variable` from expression.c: a scalar read (with
creation on first reference) or an array element read (with
auto-dimensioning to subscripts 0..10 on first use). -/
def parse_variable : Nat → BasicState → ERes Val
  | 0, _ => none
  | fuel + 1, st =>
    let (name0, text) := scan_name st.text_ptr []
    let st := { st with text_ptr := text }
    let c := basic_peek_char st
    let (name, is_string, st) : List Nat × Bool × BasicState :=
      if c = 36 then (name0 ++ [36], true, adv st 1)
      else if c = 37 then (name0 ++ [37], false, adv st 1)
      else (name0, false, st)
    let st := basic_skip_spaces st
    if basic_peek_char st = 40 then
      let st := adv st 1
      let (res, st) : Option BasicArray × BasicState :=
        match basic_get_array st name with
        | some arr => (some arr, st)
        | none =>
          let (e, st) := basic_dim_array st name [10]
          if e = ErrorCode.ERR_NONE then (basic_get_array st name, st) else (none, st)
      match res with
      | none => some (ErrorCode.ERR_OM, Val.num 0, st)
      | some arr =>
        match parse_subscripts fuel arr [] st with
        | none => none
        | some (err, indices, st) =>
          if err ≠ ErrorCode.ERR_NONE then some (err, Val.num 0, st)
          else
            let st := basic_skip_spaces st
            if basic_peek_char st ≠ 41 then some (ErrorCode.ERR_SN, Val.num 0, st)
            else
              let st := adv st 1
              if indices.length ≠ arr.num_dims then some (ErrorCode.ERR_BS, Val.num 0, st)
              else
                let (err, v) := basic_get_array_element arr indices
                some (err, v, st)
    else
      match basic_get_variable st name with
      | some v => some (ErrorCode.ERR_NONE, v.value, st)
      | none =>
        let (v, st) := basic_create_variable st name
        let init := if is_string then Val.str [] else Val.num 0
        let st := writeVar st v.name init
        some (ErrorCode.ERR_NONE, init, st)

/-- Subscript loop of `parse_variable`: comma-separated numeric
subscripts, each truncated by the `(int)` cast; more subscripts than
stored dimensions is `ERR_BS`. -/
def parse_subscripts : Nat → BasicArray → List Int → BasicState → ERes (List Int)
  | 0, _, _, _ => none
  | fuel + 1, arr, indices, st =>
    let (goOn, st) : Bool × BasicState :=
      if indices.length > 0 then
        let st := basic_skip_spaces st
        if basic_peek_char st = 44 then (true, adv st 1) else (false, st)
      else (true, st)
    if ¬ goOn then some (ErrorCode.ERR_NONE, indices, st)
    else if indices.length ≥ arr.num_dims then some (ErrorCode.ERR_BS, indices, st)
    else
      match basic_eval_numeric fuel st with
      | none => none
      | some (err, q, st) =>
        if err ≠ ErrorCode.ERR_NONE then some (err, indices, st)
        else parse_subscripts fuel arr (indices ++ [Q.trunc q]) st

end

/- ===================================================================
Statements (statements.c) and the run loop (interpreter.c)
=================================================================== -/

/-- Cursor move of `stmt_rem` and of the false branch of `stmt_if`:
skip to (not past) the end-of-line byte. -/
def skipToEOL : List Nat → List Nat
  | [] => []
  | c :: r => if IS_EOL c then c :: r else skipToEOL r

/-- Statement `END` (`stmt_end`). -/
def stmt_end (st : BasicState) : ErrorCode × BasicState :=
  (ErrorCode.ERR_NONE, { st with running := false, can_continue := false })

/-- Statement `REM` (`stmt_rem`). -/
def stmt_rem (st : BasicState) : ErrorCode × BasicState :=
  (ErrorCode.ERR_NONE, { st with text_ptr := skipToEOL st.text_ptr })

/-- Stack scan of `stmt_for`: discard the topmost FOR frame bound to
the same variable together with everything above it (`state->stack_ptr
= i`); `none` when no such frame exists (stack untouched). -/
def popForWithVar (nm : VariableName) : List StackEntry → Option (List StackEntry)
  | [] => none
  | StackEntry.forE f :: rest =>
    if var_names_equal f.loop_var nm then some rest else popForWithVar nm rest
  | StackEntry.gosubE _ :: rest => popForWithVar nm rest

/-- Statement `FOR v = a TO b [STEP s]` (`stmt_for`). -/
def stmt_for (fuel : Nat) (st : BasicState) : Option (ErrorCode × BasicState) :=
  let st := basic_skip_spaces st
  if ¬ IS_LETTER (basic_peek_char st) then some (ErrorCode.ERR_SN, st)
  else
    let (var_name, text) := scan_name st.text_ptr []
    let st := basic_skip_spaces { st with text_ptr := text }
    if txt st 0 ≠ 61 ∧ txt st 0 ≠ TOK_EQ then some (ErrorCode.ERR_SN, st)
    else
      let st := adv st 1
      match basic_eval_numeric fuel st with
      | none => none
      | some (err, start, st) =>
        if err ≠ ErrorCode.ERR_NONE then some (err, st)
        else
          let st := basic_skip_spaces st
          let to? : Option BasicState :=
            if txt st 0 = TOK_TO then some (adv st 1)
            else if TOUPPER (txt st 0) = 84 ∧ TOUPPER (txt st 1) = 79 then some (adv st 2)
            else none
          match to? with
          | none => some (ErrorCode.ERR_SN, st)
          | some st =>
            match basic_eval_numeric fuel st with
            | none => none
            | some (err, limit, st) =>
              if err ≠ ErrorCode.ERR_NONE then some (err, st)
              else
                let st := basic_skip_spaces st
                let step? : Option (Option BasicState) :=
                  if txt st 0 = TOK_STEP then some (some (adv st 1))
                  else if TOUPPER (txt st 0) = 83 ∧ TOUPPER (txt st 1) = 84 ∧
                      TOUPPER (txt st 2) = 69 ∧ TOUPPER (txt st 3) = 80 then
                    some (some (adv st 4))
                  else some none
                match step? with
                | none => none
                | some stepSt =>
                  let afterStep : Option (ErrorCode × Q × BasicState) :=
                    match stepSt with
                    | none => some (ErrorCode.ERR_NONE, 1, st)
                    | some st => basic_eval_numeric fuel st
                  match afterStep with
                  | none => none
                  | some (err, step, st) =>
                    if err ≠ ErrorCode.ERR_NONE then some (err, st)
                    else
                      let (err, st) := basic_set_variable st var_name (Val.num start)
                      if err ≠ ErrorCode.ERR_NONE then some (err, st)
                      else
                        -- `basic_get_variable` returns the entry just set;
                        -- its pointer identity is the normalized name
                        let loop_var := parse_var_name var_name
                        let stack :=
                          match popForWithVar loop_var st.stack with
                          | some rest => rest
                          | none => st.stack
                        let st := { st with stack := stack }
                        if st.stack.length ≥ st.stack_size then some (ErrorCode.ERR_OM, st)
                        else
                          let entry : ForLoopEntry :=
                            { loop_var := loop_var, step := step, limit := limit
                            , line_number := st.current_line_num
                            , text_ptr := st.text_ptr, line := st.current_line }
                          some (ErrorCode.ERR_NONE,
                            { st with stack := StackEntry.forE entry :: st.stack })

/-- Stack scan of `stmt_next`: topmost FOR frame matching the variable
(any FOR frame when the `NEXT` names none or the named variable does
not exist, i.e. the C pointer is NULL); returns the frame and the stack
part below it.  FOR frames bound to other variables are skipped but not
removed. -/
def findFor (var? : Option VariableName) : List StackEntry → Option (ForLoopEntry × List StackEntry)
  | [] => none
  | StackEntry.forE f :: rest =>
    if (match var? with | none => true | some nm => var_names_equal f.loop_var nm) then
      some (f, rest)
    else findFor var? rest
  | StackEntry.gosubE _ :: rest => findFor var? rest

/-- Core of `stmt_next` after the optional variable parse. -/
def stmt_next_core (var? : Option VariableName) (st : BasicState) : ErrorCode × BasicState :=
  match findFor var? st.stack with
  | none => (ErrorCode.ERR_NF, st)
  | some (loop, below) =>
    let current := Q.add (readVarNum st loop.loop_var) loop.step
    let st := writeVar st loop.loop_var (Val.num current)
    let done :=
      if Q.ble 0 loop.step then Q.blt loop.limit current else Q.blt current loop.limit
    if done then (ErrorCode.ERR_NONE, { st with stack := below })
    else
      (ErrorCode.ERR_NONE,
        { st with current_line := loop.line, current_line_num := loop.line_number
                , text_ptr := loop.text_ptr })

/-- Statement `NEXT [v]` (`stmt_next`). -/
def stmt_next (st : BasicState) : ErrorCode × BasicState :=
  let st := basic_skip_spaces st
  let (var?, st) : Option VariableName × BasicState :=
    if IS_LETTER (basic_peek_char st) then
      let (var_name, text) := scan_name st.text_ptr []
      let st := { st with text_ptr := text }
      ((basic_get_variable st var_name).map (fun v => v.name), st)
    else (none, st)
  stmt_next_core var? st

/-- Statement `GOTO n` (`stmt_goto`). -/
def stmt_goto (fuel : Nat) (st : BasicState) : Option (ErrorCode × BasicState) :=
  match basic_eval_numeric fuel st with
  | none => none
  | some (err, line, st) =>
    if err ≠ ErrorCode.ERR_NONE then some (err, st)
    else if Q.blt line 0 ∨ Q.blt ⟨BASIC_LINE_NUM_MAX, 1⟩ line then some (ErrorCode.ERR_US, st)
    else
      let st := basic_goto_line st (Q.trunc line)
      if st.current_line.isNone then some (ErrorCode.ERR_US, st)
      else some (ErrorCode.ERR_NONE, st)

/-- Statement `GOSUB n` (`stmt_gosub`): push the return frame, jump,
and pop the frame again when the jump fails. -/
def stmt_gosub (fuel : Nat) (st : BasicState) : Option (ErrorCode × BasicState) :=
  match basic_eval_numeric fuel st with
  | none => none
  | some (err, line, st) =>
    if err ≠ ErrorCode.ERR_NONE then some (err, st)
    else if st.stack.length ≥ st.stack_size then some (ErrorCode.ERR_OM, st)
    else
      let entry : GosubEntry := { line_number := st.current_line_num, text_ptr := st.text_ptr }
      let st := { st with stack := StackEntry.gosubE entry :: st.stack }
      let st := basic_goto_line st (Q.trunc line)
      if st.current_line.isNone then
        some (ErrorCode.ERR_US, { st with stack := st.stack.tail })
      else some (ErrorCode.ERR_NONE, st)

/-- Stack scan of `stmt_return`: topmost GOSUB frame and the stack part
below it (FOR frames above are discarded by the pop). -/
def findGosub : List StackEntry → Option (GosubEntry × List StackEntry)
  | [] => none
  | StackEntry.gosubE g :: rest => some (g, rest)
  | StackEntry.forE _ :: rest => findGosub rest

/-- Statement `RETURN` (`stmt_return`). -/
def stmt_return (st : BasicState) : ErrorCode × BasicState :=
  match findGosub st.stack with
  | none => (ErrorCode.ERR_RG, st)
  | some (ret, below) =>
    let st :=
      if ret.line_number = 0 then { st with running := false }
      else
        match basic_find_line st ret.line_number with
        | some (l :: rest) =>
          { st with current_line := some (l :: rest), current_line_num := l.line_number
                  , text_ptr := ret.text_ptr }
        | _ => st
    (ErrorCode.ERR_NONE, { st with stack := below })

/-- Line-number list scan of `stmt_on`: count the comma-separated
entries, remembering the one selected by the 1-based index. -/
def stmt_on_loop (fuel : Nat) (index : Int) (count : Nat) (target : Int) (st : BasicState) :
    ERes (Nat × Int) :=
  match fuel with
  | 0 => none
  | fuel + 1 =>
    let st := basic_skip_spaces st
    if ¬ IS_DIGIT (basic_peek_char st) then some (ErrorCode.ERR_NONE, (count, target), st)
    else
      match basic_eval_numeric fuel st with
      | none => none
      | some (err, line, st) =>
        if err ≠ ErrorCode.ERR_NONE then some (err, (count, target), st)
        else
          let count := count + 1
          let target := if (count : Int) = index then Q.trunc line else target
          let st := basic_skip_spaces st
          if txt st 0 = 44 then stmt_on_loop fuel index count target (adv st 1)
          else some (ErrorCode.ERR_NONE, (count, target), st)

/-- Statement `ON expr GOTO/GOSUB n1,n2,…` (`stmt_on`): an index below
1 or above the list length falls through without error. -/
def stmt_on (fuel : Nat) (st : BasicState) : Option (ErrorCode × BasicState) :=
  match basic_eval_numeric fuel st with
  | none => none
  | some (err, idx, st) =>
    if err ≠ ErrorCode.ERR_NONE then some (err, st)
    else
      let index := Q.trunc idx
      let st := basic_skip_spaces st
      let gosub? : Option (Bool × BasicState) :=
        if txt st 0 = TOK_GOTO then some (false, adv st 1)
        else if txt st 0 = TOK_GOSUB then some (true, adv st 1)
        else none
      match gosub? with
      | none => some (ErrorCode.ERR_SN, st)
      | some (is_gosub, st) =>
        match stmt_on_loop fuel index 0 0 st with
        | none => none
        | some (err, (count, target), st) =>
          if err ≠ ErrorCode.ERR_NONE then some (err, st)
          else if index < 1 ∨ index > (count : Int) then some (ErrorCode.ERR_NONE, st)
          else if is_gosub ∧ st.stack.length ≥ st.stack_size then some (ErrorCode.ERR_OM, st)
          else
            let st :=
              if is_gosub then
                let entry : GosubEntry :=
                  { line_number := st.current_line_num, text_ptr := st.text_ptr }
                { st with stack := StackEntry.gosubE entry :: st.stack }
              else st
            let st := basic_goto_line st target
            if st.current_line.isNone then
              some (ErrorCode.ERR_US,
                if is_gosub then { st with stack := st.stack.tail } else st)
            else some (ErrorCode.ERR_NONE, st)

/-- Statement `RUN [n]` (`stmt_run`): clear variables and the stack,
position at line `n` or the first line, enter run mode. -/
def stmt_run (fuel : Nat) (st : BasicState) : Option (ErrorCode × BasicState) :=
  let st := basic_skip_spaces st
  let st := basic_clear_variables st
  let st := { st with stack := [] }
  let after : Option (Option (ErrorCode × BasicState) × BasicState) :=
    if IS_DIGIT (basic_peek_char st) then
      match basic_eval_numeric fuel st with
      | none => none
      | some (err, line, st) =>
        if err ≠ ErrorCode.ERR_NONE then some (some (err, st), st)
        else
          let st := basic_goto_line st (Q.trunc line)
          if st.current_line.isNone then some (some (ErrorCode.ERR_US, st), st)
          else some (none, st)
    else
      match st.program with
      | [] => some (none, { st with current_line := none })
      | l :: rest =>
        some (none, { st with current_line := some (l :: rest)
                            , text_ptr := l.text, current_line_num := l.line_number })
  match after with
  | none => none
  | some (some early, _) => some early
  | some (none, st) =>
    some (ErrorCode.ERR_NONE, { st with running := true, can_continue := true })

/-- Lvalue of `parse_lvalue`: either a scalar variable (pointer = its
normalized name) or an array element (array name plus index list). -/
inductive Lvalue where
  | lvar (nm : VariableName)
  | larr (nm : VariableName) (indices : List Int)
  deriving DecidableEq, Repr

/-- Subscript loop of `parse_lvalue` (statements.c): unlike the one in
expression.c, it evaluates each subscript before checking the count
against the absolute bound `BASIC_ARRAY_DIMS`, and never compares the
count against the array's dimensionality. -/
def parse_lvalue_subs (fuel : Nat) (indices : List Int) (st : BasicState) : ERes (List Int) :=
  match fuel with
  | 0 => none
  | fuel + 1 =>
    let (goOn, st) : Bool × BasicState :=
      if indices.length > 0 then
        let st := basic_skip_spaces st
        if txt st 0 = 44 then (true, adv st 1) else (false, st)
      else (true, st)
    if ¬ goOn then some (ErrorCode.ERR_NONE, indices, st)
    else
      match basic_eval_numeric fuel st with
      | none => none
      | some (err, q, st) =>
        if err ≠ ErrorCode.ERR_NONE then some (err, indices, st)
        else if indices.length ≥ BASIC_ARRAY_DIMS then some (ErrorCode.ERR_BS, indices, st)
        else parse_lvalue_subs fuel (indices ++ [Q.trunc q]) st

/-- Function `parse_lvalue` from statements.c. -/
def parse_lvalue (fuel : Nat) (st : BasicState) : ERes Lvalue :=
  let st := basic_skip_spaces st
  if ¬ IS_LETTER (basic_peek_char st) then some (ErrorCode.ERR_SN, Lvalue.lvar (parse_var_name []), st)
  else
    let (name0, text) := scan_name st.text_ptr []
    let st := { st with text_ptr := text }
    let (name, st) : List Nat × BasicState :=
      if txt st 0 = 36 ∨ txt st 0 = 37 then (name0 ++ [txt st 0], adv st 1)
      else (name0, st)
    let st := basic_skip_spaces st
    if txt st 0 = 40 then
      let st := adv st 1
      let (res, st) : Option BasicArray × BasicState :=
        match basic_get_array st name with
        | some arr => (some arr, st)
        | none =>
          let (e, st) := basic_dim_array st name [10]
          if e = ErrorCode.ERR_NONE then (basic_get_array st name, st) else (none, st)
      match res with
      | none => some (ErrorCode.ERR_OM, Lvalue.lvar (parse_var_name name), st)
      | some arr =>
        match parse_lvalue_subs fuel [] st with
        | none => none
        | some (err, indices, st) =>
          if err ≠ ErrorCode.ERR_NONE then some (err, Lvalue.lvar (parse_var_name name), st)
          else
            let st := basic_skip_spaces st
            if txt st 0 ≠ 41 then some (ErrorCode.ERR_SN, Lvalue.lvar (parse_var_name name), st)
            else some (ErrorCode.ERR_NONE, Lvalue.larr arr.name indices, adv st 1)
    else
      match basic_get_variable st name with
      | some v => some (ErrorCode.ERR_NONE, Lvalue.lvar v.name, st)
      | none =>
        let (v, st) := basic_create_variable st name
        some (ErrorCode.ERR_NONE, Lvalue.lvar v.name, st)

/-- Statement `LET` / implicit assignment (`stmt_let`). -/
def stmt_let (fuel : Nat) (st : BasicState) : Option (ErrorCode × BasicState) :=
  match parse_lvalue fuel st with
  | none => none
  | some (err, lv, st) =>
    if err ≠ ErrorCode.ERR_NONE then some (err, st)
    else
      let st := basic_skip_spaces st
      if txt st 0 ≠ 61 ∧ txt st 0 ≠ TOK_EQ then some (ErrorCode.ERR_SN, st)
      else
        let st := adv st 1
        match basic_evaluate fuel st with
        | none => none
        | some (err, val, st) =>
          if err ≠ ErrorCode.ERR_NONE then some (err, st)
          else
            match lv with
            | Lvalue.larr nm indices =>
              match st.arrays.find? (fun a => var_names_equal a.name nm) with
              | some arr =>
                let (err, st) := basic_set_array_element st arr indices val
                some (err, st)
              | none => some (ErrorCode.ERR_SN, st)
            | Lvalue.lvar nm =>
              if nm.isString ∧ ¬ (is_string_val val = true) then some (ErrorCode.ERR_TM, st)
              else if ¬ nm.isString ∧ is_string_val val = true then some (ErrorCode.ERR_TM, st)
              else some (ErrorCode.ERR_NONE, writeVar st nm val)

/-- Dispatcher `basic_execute_statement` (GONE).  Statements whose
handlers are outside the embedded fragment answer `none`; `LOAD`,
`SAVE`, `VERIFY` and unknown tokens are `ERR_SN` exactly as in C. -/
def basic_execute_statement (fuel : Nat) (st : BasicState) : Option (ErrorCode × BasicState) :=
  match fuel with
  | 0 => none
  | fuel + 1 =>
    let st := basic_skip_spaces st
    if IS_EOS (basic_peek_char st) then some (ErrorCode.ERR_NONE, st)
    else
      let c := txt st 0
      if IS_TOKEN c then
        let st := adv st 1
        if c = TOK_END then some (stmt_end st)
        else if c = TOK_FOR then stmt_for fuel st
        else if c = TOK_NEXT then some (stmt_next st)
        else if c = TOK_LET then stmt_let fuel st
        else if c = TOK_GOTO then stmt_goto fuel st
        else if c = TOK_RUN then stmt_run fuel st
        else if c = TOK_GOSUB then stmt_gosub fuel st
        else if c = TOK_RETURN then some (stmt_return st)
        else if c = TOK_REM then some (stmt_rem st)
        else if c = TOK_ON then stmt_on fuel st
        else if c = TOK_LOAD ∨ c = TOK_SAVE ∨ c = TOK_VERIFY then some (ErrorCode.ERR_SN, st)
        else if c = TOK_DATA ∨ c = TOK_INPUT ∨ c = TOK_DIM ∨ c = TOK_READ ∨ c = TOK_IF ∨
            c = TOK_RESTORE ∨ c = TOK_STOP ∨ c = TOK_NULL ∨ c = TOK_WAIT ∨ c = TOK_DEF ∨
            c = TOK_POKE ∨ c = TOK_PRINT ∨ c = TOK_CONT ∨ c = TOK_LIST ∨ c = TOK_CLEAR ∨
            c = TOK_GET ∨ c = TOK_NEW then none
        else some (ErrorCode.ERR_SN, st)
      else if IS_LETTER c then stmt_let fuel st
      else if c = 63 then none
      else some (ErrorCode.ERR_SN, st)

/-- One iteration of the `while` loop of `basic_run` (interpreter.c):
execute a statement, then advance over a `:` separator or to the
successor line.  `Sum.inl r` means the loop exits with result `r`
(`none` = out of fuel / outside the fragment); `Sum.inr st` means the
loop continues with state `st`.  `basic_check_break` always answers
false (error.c), so the break branch is dead code. -/
def basic_run_step (pf : Nat) (st : BasicState) :
    Sum (Option (ErrorCode × BasicState)) BasicState :=
  if st.running ∧ st.current_line.isSome then
    match basic_execute_statement pf st with
    | none => Sum.inl none
    | some (err, st) =>
      if err ≠ ErrorCode.ERR_NONE then Sum.inl (some (err, { st with running := false }))
      else
        let st := basic_skip_spaces st
        if txt st 0 = 58 then Sum.inr (adv st 1)
        else if IS_EOL (txt st 0) then
          match st.current_line with
          | some (_ :: next) =>
            match next with
            | l :: _ =>
              Sum.inr { st with current_line := some next, current_line_num := l.line_number
                              , text_ptr := l.text }
            | [] => Sum.inr { st with current_line := none, running := false }
          | _ => Sum.inr st
        else Sum.inr st
  else Sum.inl (some (ErrorCode.ERR_NONE, { st with running := false }))

/-- Loop of `basic_run` (interpreter.c): iterate `basic_run_step`. -/
def basic_run_steps (pf : Nat) : Nat → BasicState → Option (ErrorCode × BasicState)
  | 0, _ => none
  | fuel + 1, st =>
    match basic_run_step pf st with
    | Sum.inl r => r
    | Sum.inr st => basic_run_steps pf fuel st

/-- Entry of `basic_run` (interpreter.c) before its loop: position at
the first program line when no current line is set, leave direct mode
and raise the running flag. -/
def basic_run_prep (st : BasicState) : BasicState :=
  let st :=
    match st.current_line, st.program with
    | none, l :: rest =>
      { st with current_line := some (l :: rest), current_line_num := l.line_number
              , text_ptr := l.text }
    | _, _ => st
  { st with direct_mode := false, running := true }

/-- Function `basic_run` from interpreter.c. -/
def basic_run (pf fuel : Nat) (st : BasicState) : Option (ErrorCode × BasicState) :=
  basic_run_steps pf fuel (basic_run_prep st)

/-- Outcome of one iteration of the statement loop of
`basic_execute_line` (direct mode): the loop exits with a result,
continues with a new state, or hands over to `basic_run` because a
statement raised the running flag. -/
inductive LineStep where
  | done (r : Option (ErrorCode × BasicState))
  | cont (st : BasicState)
  | toRun (st : BasicState)
  deriving DecidableEq, Repr

/-- One iteration of the statement loop of `basic_execute_line`
(direct mode): run a statement, advance over a `:` separator. -/
def execute_line_step (pf : Nat) (st : BasicState) : LineStep :=
  if ¬ IS_EOL (txt st 0) ∧ ¬ st.running then
    match basic_execute_statement pf st with
    | none => LineStep.done none
    | some (err, st) =>
      if err ≠ ErrorCode.ERR_NONE then
        if st.running then LineStep.toRun st else LineStep.done (some (err, st))
      else
        let st := basic_skip_spaces st
        let st := if txt st 0 = 58 then adv st 1 else st
        LineStep.cont st
  else
    if st.running then LineStep.toRun st
    else LineStep.done (some (ErrorCode.ERR_NONE, st))

/-- Statement loop of `basic_execute_line` (direct mode): iterate
`execute_line_step`; a statement that enters run mode hands over to
`basic_run`. -/
def execute_line_loop (pf : Nat) : Nat → BasicState → Option (ErrorCode × BasicState)
  | 0, _ => none
  | fuel + 1, st =>
    match execute_line_step pf st with
    | LineStep.done r => r
    | LineStep.cont st => execute_line_loop pf fuel st
    | LineStep.toRun st => basic_run pf fuel st

/-- State set up by `basic_execute_line` before its statement loop: the
(already space-stripped) direct line is tokenized into the text buffer
and direct mode entered. -/
def basic_direct_prep (st : BasicState) (line : List Nat) : BasicState :=
  { st with direct_mode := true, current_line := none, current_line_num := 0
          , text_ptr := basic_tokenize line }

/-- Function `basic_execute_line` from interpreter.c: a numbered line
is stored, anything else is tokenized and executed in direct mode. -/
def basic_execute_line (pf fuel : Nat) (st : BasicState) (line : List Nat) :
    Option (ErrorCode × BasicState) :=
  let line := skipSpacesOnly line
  if IS_DIGIT (line.headD 0) then
    match basic_store_line st line with
    | (true, st) => some (ErrorCode.ERR_NONE, st)
    | (false, st) => some (ErrorCode.ERR_SN, st)
  else
    execute_line_loop pf fuel (basic_direct_prep st line)

/- ===================================================================
RND and the 5-byte MS float (functions.c)
=================================================================== -/

/-- Five-byte Microsoft float: exponent byte and four mantissa bytes.
This is the layout `basic_fn_rnd` reads and writes through
`state->rnd_seed` (include/basic.h declares `rnd_seed` as a `uint32_t`,
which that access pattern overruns; the embedding follows the 5-byte
usage in functions.c, the file the RND claims cite).  All fields are
byte values < 256.  Byte-level `x | 0x80` is written `128 + x % 128`
and `x & 0x7F` as `x % 128` because the kernel cannot evaluate
`Nat.lor`. -/
structure Fac5 where
  e : Nat
  m1 : Nat
  m2 : Nat
  m3 : Nat
  m4 : Nat
  deriving DecidableEq, Repr

/-- Function `msbas_to_double`: value of a 5-byte float, exactly.  The
mantissa with its implied leading 1 is divided by `2^32` and scaled by
`2^(exp - 128)`; every such value is an exact double. -/
def msbas_to_double (f : Fac5) : Q :=
  if f.e = 0 then 0
  else
    let m : Nat := (128 + f.m1 % 128) * 2 ^ 24 + f.m2 * 2 ^ 16 + f.m3 * 2 ^ 8 + f.m4
    if 160 ≤ f.e then ⟨(m : Int) * 2 ^ (f.e - 160), 1⟩ else ⟨(m : Int), 2 ^ (160 - f.e)⟩

/-- Exponent search for the `frexp` model, `x = a/b ≥ 1` case: the `e`
with `b * 2^e ≤ a < b * 2^(e+1)` (fuel `a` always suffices). -/
def qlog2_pos : Nat → Nat → Nat → Nat
  | 0, _, _ => 0
  | fuel + 1, a, b => if a < b * 2 then 0 else 1 + qlog2_pos fuel a (b * 2)

/-- Exponent search for the `frexp` model, `x = a/b < 1` case: smallest
`k ≥ 0` with `a * 2^k ≥ b`. -/
def qlog2_neg : Nat → Nat → Nat → Nat
  | 0, _, _ => 0
  | fuel + 1, a, b => if b ≤ a then 0 else 1 + qlog2_neg fuel (a * 2) b

/-- Function `double_to_msbas`: pack a double into the 5-byte float via
`frexp` (mantissa in `[1/2, 1)`) and truncation of `mantissa * 2^32`. -/
def double_to_msbas (d : Q) : Fac5 :=
  if Q.beq d 0 then ⟨0, 0, 0, 0, 0⟩
  else
    let sign : Nat := if d.n < 0 then 128 else 0
    let a := d.n.natAbs
    let b := d.d
    let e : Int := if a ≥ b then (qlog2_pos a a b : Int) + 1 else -(qlog2_neg b a b : Int)
    let f0 : Nat := ((e + 128) % 256).toNat
    let m : Nat :=
      (if 0 ≤ e then a * 2 ^ 32 / (b * 2 ^ e.toNat) else a * 2 ^ (32 + (-e).toNat) / b) % 2 ^ 32
    { e := f0
    , m1 := m / 2 ^ 24 % 128 + sign
    , m2 := m / 2 ^ 16 % 256
    , m3 := m / 2 ^ 8 % 256
    , m4 := m % 256 }

/-- Result accumulator of `msbas_fmult` (RESHO..RESLO plus the
overflow byte and the 6502 carry flag). -/
structure MulRegs where
  resho : Nat
  resmoh : Nat
  resmo : Nat
  reslo : Nat
  res_ov : Nat
  carry : Nat
  deriving DecidableEq, Repr

/-- One ROR step: shift right, carry in at bit 7, bit 0 out. -/
def ror8 (x carryIn : Nat) : Nat × Nat := (x / 2 + carryIn * 128, x % 2)

/-- MLTPL2 inner loop of `msbas_fmult`: 8-bit shift-and-add (the
counter `a` starts at `(byte >> 1) | 0x80`, so fuel 9 covers the 8
iterations). -/
def mltpl2 (fuel : Nat) (a : Nat) (argho argmoh argmo arglo : Nat) (r : MulRegs) : MulRegs :=
  match fuel with
  | 0 => r
  | fuel + 1 =>
    let y := a
    let r :=
      if r.carry = 1 then
        let s1 := r.reslo + arglo
        let s2 := r.resmo + argmo + s1 / 256
        let s3 := r.resmoh + argmoh + s2 / 256
        let s4 := r.resho + argho + s3 / 256
        { r with reslo := s1 % 256, resmo := s2 % 256, resmoh := s3 % 256
               , resho := s4 % 256, carry := s4 / 256 }
      else { r with carry := 0 }
    let (resho, c1) := ror8 r.resho r.carry
    let (resmoh, c2) := ror8 r.resmoh c1
    let (resmo, c3) := ror8 r.resmo c2
    let (reslo, c4) := ror8 r.reslo c3
    let (res_ov, _) := ror8 r.res_ov c4
    let r := { resho := resho, resmoh := resmoh, resmo := resmo, reslo := reslo
             , res_ov := res_ov, carry := y % 2 }
    let a := y / 2
    if a = 0 then r else mltpl2 fuel a argho argmoh argmo arglo r

/-- MULSHF path of `msbas_fmult` for a zero multiplier byte: byte shift
of the accumulator, with the extra SHFTR3 bit shift when the carry was
clear. -/
def mulshf (r : MulRegs) : MulRegs :=
  let r := { r with res_ov := r.reslo, reslo := r.resmo, resmo := r.resmoh
                  , resmoh := r.resho, resho := 0 }
  -- SHIFTR: ADC #8 / SBC #8 carry dance; a borrow occurs exactly when
  -- the carry flag was clear
  if r.carry = 1 then { r with carry := 0 }
  else
    let c := r.resho / 128
    let resho := r.resho * 2 % 256
    let resho := if c = 1 then (resho + 1) % 256 else resho
    let (resho, c1) := ror8 resho c
    let (resho, c2) := ror8 resho c1
    let (resmoh, c3) := ror8 r.resmoh c2
    let (resmo, c4) := ror8 r.resmo c3
    let (reslo, c5) := ror8 r.reslo c4
    let (res_ov, _) := ror8 r.res_ov c5
    { resho := resho, resmoh := resmoh, resmo := resmo, reslo := reslo
    , res_ov := res_ov, carry := 0 }

/-- Left-shift normalization loop of `msbas_fmult` (exponent counts
down, overflow bits shift in from the right). -/
def fmult_normalize : Nat → MulRegs → Nat × MulRegs
  | 0, r => (0, r)
  | e + 1, r =>
    if 128 ≤ r.resho then (e + 1, r)
    else
      let c0 := r.res_ov / 128
      let res_ov := r.res_ov * 2 % 256
      let c1 := r.reslo / 128
      let reslo := (r.reslo * 2 + c0) % 256
      let c2 := r.resmo / 128
      let resmo := (r.resmo * 2 + c1) % 256
      let c3 := r.resmoh / 128
      let resmoh := (r.resmoh * 2 + c2) % 256
      let resho := (r.resho * 2 + c3) % 256
      fmult_normalize e
        { resho := resho, resmoh := resmoh, resmo := resmo, reslo := reslo
        , res_ov := res_ov, carry := r.carry }

/-- Function `msbas_fmult`: the exact 6502 FMULT/MLTPLY shift-and-add
multiply on 5-byte floats, with the extended overflow byte. -/
def msbas_fmult (fac : Fac5) (arg : Fac5) (ov : Nat) : Fac5 × Nat :=
  if fac.e = 0 ∨ arg.e = 0 then (⟨0, 0, 0, 0, 0⟩, 0)
  else
    let new_exp : Int := (fac.e : Int) + arg.e - 128
    if new_exp ≤ 0 then (⟨0, 0, 0, 0, 0⟩, 0)
    else
      let new_exp : Nat := if new_exp > 255 then 255 else new_exp.toNat
      let argho := 128 + arg.m1 % 128
      let facho := 128 + fac.m1 % 128
      let fac_bytes : List (Nat × Bool) :=
        [(ov, false), (fac.m4, false), (fac.m3, false), (fac.m2, false), (facho, true)]
      let r0 : MulRegs := { resho := 0, resmoh := 0, resmo := 0, reslo := 0
                          , res_ov := 0, carry := 0 }
      let r := fac_bytes.foldl
        (fun r p =>
          if ¬ p.2 ∧ p.1 = 0 then mulshf r
          else mltpl2 9 (p.1 / 2 + 128) argho arg.m2 arg.m3 arg.m4 { r with carry := p.1 % 2 })
        r0
      let (e, r) := fmult_normalize new_exp r
      if e = 0 then (⟨0, 0, 0, 0, 0⟩, 0)
      else (⟨e, r.resho % 128, r.resmoh, r.resmo, r.reslo⟩, r.res_ov)

/-- Normalization loop of `msbas_fadd` on the 32-bit accumulator. -/
def fadd_normalize : Nat → Nat → Nat → Nat × Nat × Nat
  | 0, result, ov => (0, result, ov)
  | e + 1, result, ov =>
    if 2 ^ 31 ≤ result ∨ result = 0 then (e + 1, result, ov)
    else fadd_normalize e ((result * 2 + ov / 128) % 2 ^ 32) (ov * 2 % 256)

/-- Function `msbas_fadd`: 40-bit aligned addition of 5-byte floats. -/
def msbas_fadd (fac : Fac5) (arg : Fac5) (ov : Nat) : Fac5 × Nat :=
  if arg.e = 0 then (fac, ov)
  else if fac.e = 0 then (arg, 0)
  else
    let m1 := ((128 + fac.m1 % 128) * 2 ^ 24 + fac.m2 * 2 ^ 16 + fac.m3 * 2 ^ 8 + fac.m4)
      * 256 + ov
    let m2 := ((128 + arg.m1 % 128) * 2 ^ 24 + arg.m2 * 2 ^ 16 + arg.m3 * 2 ^ 8 + arg.m4) * 256
    let exp_diff : Int := (fac.e : Int) - arg.e
    if exp_diff > 64 then (fac, ov)
    else if exp_diff < -64 then (arg, 0)
    else
      let (m1, m2, exp1) : Nat × Nat × Nat :=
        if exp_diff > 0 then (m1, m2 / 2 ^ exp_diff.toNat, fac.e)
        else if exp_diff < 0 then (m1 / 2 ^ (-exp_diff).toNat, m2, arg.e)
        else (m1, m2, fac.e)
      let sum := m1 + m2
      let (sum, exp1) := if 2 ^ 40 ≤ sum then (sum / 2, exp1 + 1) else (sum, exp1)
      let result := sum / 256 % 2 ^ 32
      let ov := sum % 256
      let (exp1, result, ov) := fadd_normalize exp1 result ov
      if exp1 = 0 ∨ exp1 > 255 ∨ result = 0 then (⟨0, 0, 0, 0, 0⟩, 0)
      else
        (⟨exp1, result / 2 ^ 24 % 128, result / 2 ^ 16 % 256, result / 2 ^ 8 % 256, result % 256⟩
        , ov)

/-- NORMAL loop of the RND byte-swap path: shift the swapped mantissa
left, feeding in bits of the saved exponent, until bit 7 of the high
byte is set (the exponent byte counts down). -/
def rnd_normalize : Nat → Nat → Nat → Nat → Nat → Nat → Nat × Nat × Nat × Nat × Nat × Nat
  | 0, m1, m2, m3, m4, ov => (0, m1, m2, m3, m4, ov)
  | e + 1, m1, m2, m3, m4, ov =>
    if 128 ≤ m1 then (e + 1, m1, m2, m3, m4, ov)
    else
      let carry := ov / 128
      let ov := ov * 2 % 256
      let new_lo := (m4 * 2 + carry) % 256
      let c1 := m4 / 128
      let new_mo := (m3 * 2 + c1) % 256
      let c2 := m3 / 128
      let new_moh := (m2 * 2 + c2) % 256
      let c3 := m2 / 128
      let new_ho := (m1 * 2 + c3) % 256
      rnd_normalize e new_ho new_moh new_mo new_lo ov

/-- Byte-swap, renormalization and rounding tail of `basic_fn_rnd`
(label `rnd_swap` onward), producing the stored seed.  The incoming
overflow byte is immediately overwritten with the exponent (`FACOV =
FACEXP`), exactly as in the C code. -/
def rnd_swap (fac : Fac5) (ov : Nat) : Fac5 :=
  let _unused := ov
  let m1 := 128 + fac.m1 % 128
  -- swap FACHO <-> FACLO and FACMOH <-> FACMO
  let (m1, m4) := (fac.m4, m1)
  let (m2, m3) := (fac.m3, fac.m2)
  let ov := fac.e
  let e := 128
  let (e, m1, m2, m3, m4, ov) := rnd_normalize e m1 m2 m3 m4 ov
  let (e, m1, m2, m3, m4, ov) :=
    if e = 0 then (0, 0, 0, 0, 0, 0) else (e, m1, m2, m3, m4, ov)
  let (e, m1, m2, m3, m4) :=
    if 128 ≤ ov then
      let m4 := (m4 + 1) % 256
      if m4 = 0 then
        let m3 := (m3 + 1) % 256
        if m3 = 0 then
          let m2 := (m2 + 1) % 256
          if m2 = 0 then
            let m1 := (m1 + 1) % 256
            if m1 = 0 then ((e + 1) % 256, 128, m2, m3, m4)
            else (e, m1, m2, m3, m4)
          else (e, m1, m2, m3, m4)
        else (e, m1, m2, m3, m4)
      else (e, m1, m2, m3, m4)
    else (e, m1, m2, m3, m4)
  ⟨e, m1 % 128, m2, m3, m4⟩

/-- Constant CONRND1 from `basic_fn_rnd`. -/
def CONRND1 : Fac5 := ⟨0x98, 0x35, 0x44, 0x7A, 0x00⟩

/-- Constant CONRND2 from `basic_fn_rnd`. -/
def CONRND2 : Fac5 := ⟨0x68, 0x28, 0xB1, 0x46, 0x00⟩

/-- Function `basic_fn_rnd` from functions.c, as a function of the RND
seed: `x > 0` steps the seed by the historical multiply-add and
swap-normalize; `x = 0` returns the current seed's value without
touching it; `x < 0` reseeds from `|x|` (swap-normalize only). -/
def basic_fn_rnd (seed : Fac5) (x : Q) : Q × Fac5 :=
  if Q.blt x 0 then
    let fac := double_to_msbas (Q.neg x)
    let seed := rnd_swap fac 0
    (msbas_to_double seed, seed)
  else if Q.beq x 0 then
    (msbas_to_double seed, seed)
  else
    let (fac, ov) := msbas_fmult seed CONRND1 0
    let (fac, ov) := msbas_fadd fac CONRND2 ov
    let seed := rnd_swap fac ov
    (msbas_to_double seed, seed)


/- ===================================================================
Scenario material used by the claim theorems
=================================================================== -/

/-- Factorial scenario program (spec §8, scenario 1). -/
def factorialProgram : List (List Nat) :=
  [ strBytes "10 N=5", strBytes "20 F=1", strBytes "30 FOR I=1 TO N"
  , strBytes "40 F=F*I", strBytes "50 NEXT I" ]

/-- ON…GOTO out-of-range scenario program (spec §8, scenario 6). -/
def onGotoProgram : List (List Nat) :=
  [ strBytes "10 X=4", strBytes "20 ON X GOTO 100,200,300", strBytes "30 A=99"
  , strBytes "40 END", strBytes "100 A=1", strBytes "200 A=2", strBytes "300 A=3" ]

/-- Feeding source lines to `basic_store_line` one after the other, as
the file loader in main.c does. -/
def loadProgram (lines : List (List Nat)) : BasicState :=
  lines.foldl (fun st l => (basic_store_line st l).2) basic_init

/-- Numeric value of a scalar variable, read through
`basic_get_variable`. -/
def getVarNum (st : BasicState) (name : List Nat) : Option Q :=
  (basic_get_variable st name).map (fun v => get_numeric v.value)

/-- Strict ascending order of the program store (the invariant of
spec §3, "Program line"). -/
def ProgramSorted (p : List ProgramLine) : Prop :=
  List.Pairwise (fun a b => a.line_number < b.line_number) p

/-- Test for a GOSUB frame (used to phrase the stack discipline). -/
def entry_is_gosub : StackEntry → Bool
  | StackEntry.gosubE _ => true
  | StackEntry.forE _ => false

/-- Matching predicate of the `stmt_next` stack scan. -/
def for_matches (var? : Option VariableName) : StackEntry → Bool
  | StackEntry.forE f =>
    match var? with
    | none => true
    | some nm => var_names_equal f.loop_var nm
  | StackEntry.gosubE _ => false

/-- State of the C1 counterexample: the program holds only line 30 and
the cursor sits on the text `10` of a `GOTO 10`. -/
def C1_state : BasicState :=
  { basic_init with program := [⟨30, strBytes "A=7"⟩], text_ptr := strBytes "10" }

/-- State after evaluating the target expression `10` of the C1
witness: the text is consumed, everything else as in `C1_state`. -/
def C1s1 : BasicState :=
  { basic_init with program := [⟨30, strBytes "A=7"⟩] }

/-- State of the C3 counterexample: a stored line 10 and a live
continuation. -/
def C3_state : BasicState :=
  { basic_init with program := [⟨10, strBytes "A=1"⟩], can_continue := true }

/-- FOR frame of the C4 counterexample (loop variable I, step 1, limit
10, so the next `NEXT I` continues the loop). -/
def C4_forEntry : ForLoopEntry :=
  { loop_var := parse_var_name (strBytes "I"), step := 1, limit := 10
  , line_number := 30, text_ptr := [], line := none }

/-- GOSUB frame sitting above the FOR frame in the C4 counterexample. -/
def C4_gosubEntry : GosubEntry := { line_number := 20, text_ptr := [] }

/-- State of the C4 counterexample: `NEXT I` executed while a
GosubFrame lies above the matching ForFrame. -/
def C4_state : BasicState :=
  { basic_init with
    vars := [{ name := parse_var_name (strBytes "I"), value := Val.num 1 }]
  , stack := [StackEntry.gosubE C4_gosubEntry, StackEntry.forE C4_forEntry]
  , text_ptr := strBytes "I" }

/-- Intermediate interpreter state 0 of the C6 scenario run. -/
def C6s0 : BasicState := { program := [{ line_number := 10, text := [78, 61, 53] }, { line_number := 20, text := [70, 61, 49] }, { line_number := 30, text := [129, 32, 73, 61, 49, 32, 159, 32, 78] }, { line_number := 40, text := [70, 61, 70, 42, 73] }, { line_number := 50, text := [130, 32, 73] }], current_line := none, text_ptr := [137], vars := [], arrays := [], stack := [], stack_size := 512, running := false, direct_mode := true, current_line_num := 0, can_continue := false }

/-- Intermediate interpreter state 1 of the C6 scenario run. -/
def C6s1 : BasicState := { program := [{ line_number := 10, text := [78, 61, 53] }, { line_number := 20, text := [70, 61, 49] }, { line_number := 30, text := [129, 32, 73, 61, 49, 32, 159, 32, 78] }, { line_number := 40, text := [70, 61, 70, 42, 73] }, { line_number := 50, text := [130, 32, 73] }], current_line := some [{ line_number := 10, text := [78, 61, 53] }, { line_number := 20, text := [70, 61, 49] }, { line_number := 30, text := [129, 32, 73, 61, 49, 32, 159, 32, 78] }, { line_number := 40, text := [70, 61, 70, 42, 73] }, { line_number := 50, text := [130, 32, 73] }], text_ptr := [78, 61, 53], vars := [], arrays := [], stack := [], stack_size := 512, running := true, direct_mode := true, current_line_num := 10, can_continue := true }

/-- Intermediate interpreter state 2 of the C6 scenario run. -/
def C6s2 : BasicState := { program := [{ line_number := 10, text := [78, 61, 53] }, { line_number := 20, text := [70, 61, 49] }, { line_number := 30, text := [129, 32, 73, 61, 49, 32, 159, 32, 78] }, { line_number := 40, text := [70, 61, 70, 42, 73] }, { line_number := 50, text := [130, 32, 73] }], current_line := some [{ line_number := 10, text := [78, 61, 53] }, { line_number := 20, text := [70, 61, 49] }, { line_number := 30, text := [129, 32, 73, 61, 49, 32, 159, 32, 78] }, { line_number := 40, text := [70, 61, 70, 42, 73] }, { line_number := 50, text := [130, 32, 73] }], text_ptr := [78, 61, 53], vars := [], arrays := [], stack := [], stack_size := 512, running := true, direct_mode := true, current_line_num := 10, can_continue := true }

/-- Intermediate interpreter state 3 of the C6 scenario run. -/
def C6s3 : BasicState := { program := [{ line_number := 10, text := [78, 61, 53] }, { line_number := 20, text := [70, 61, 49] }, { line_number := 30, text := [129, 32, 73, 61, 49, 32, 159, 32, 78] }, { line_number := 40, text := [70, 61, 70, 42, 73] }, { line_number := 50, text := [130, 32, 73] }], current_line := some [{ line_number := 10, text := [78, 61, 53] }, { line_number := 20, text := [70, 61, 49] }, { line_number := 30, text := [129, 32, 73, 61, 49, 32, 159, 32, 78] }, { line_number := 40, text := [70, 61, 70, 42, 73] }, { line_number := 50, text := [130, 32, 73] }], text_ptr := [78, 61, 53], vars := [], arrays := [], stack := [], stack_size := 512, running := true, direct_mode := false, current_line_num := 10, can_continue := true }

/-- Intermediate interpreter state 4 of the C6 scenario run. -/
def C6s4 : BasicState := { program := [{ line_number := 10, text := [78, 61, 53] }, { line_number := 20, text := [70, 61, 49] }, { line_number := 30, text := [129, 32, 73, 61, 49, 32, 159, 32, 78] }, { line_number := 40, text := [70, 61, 70, 42, 73] }, { line_number := 50, text := [130, 32, 73] }], current_line := some [{ line_number := 20, text := [70, 61, 49] }, { line_number := 30, text := [129, 32, 73, 61, 49, 32, 159, 32, 78] }, { line_number := 40, text := [70, 61, 70, 42, 73] }, { line_number := 50, text := [130, 32, 73] }], text_ptr := [70, 61, 49], vars := [{ name := { n0 := 78, n1 := 32, isString := false, isInteger := false }, value := CBASIC.Val.num { n := 5, d := 1 } }], arrays := [], stack := [], stack_size := 512, running := true, direct_mode := false, current_line_num := 20, can_continue := true }

/-- Intermediate interpreter state 5 of the C6 scenario run. -/
def C6s5 : BasicState := { program := [{ line_number := 10, text := [78, 61, 53] }, { line_number := 20, text := [70, 61, 49] }, { line_number := 30, text := [129, 32, 73, 61, 49, 32, 159, 32, 78] }, { line_number := 40, text := [70, 61, 70, 42, 73] }, { line_number := 50, text := [130, 32, 73] }], current_line := some [{ line_number := 30, text := [129, 32, 73, 61, 49, 32, 159, 32, 78] }, { line_number := 40, text := [70, 61, 70, 42, 73] }, { line_number := 50, text := [130, 32, 73] }], text_ptr := [129, 32, 73, 61, 49, 32, 159, 32, 78], vars := [{ name := { n0 := 70, n1 := 32, isString := false, isInteger := false }, value := CBASIC.Val.num { n := 1, d := 1 } }, { name := { n0 := 78, n1 := 32, isString := false, isInteger := false }, value := CBASIC.Val.num { n := 5, d := 1 } }], arrays := [], stack := [], stack_size := 512, running := true, direct_mode := false, current_line_num := 30, can_continue := true }

/-- Intermediate interpreter state 6 of the C6 scenario run. -/
def C6s6 : BasicState := { program := [{ line_number := 10, text := [78, 61, 53] }, { line_number := 20, text := [70, 61, 49] }, { line_number := 30, text := [129, 32, 73, 61, 49, 32, 159, 32, 78] }, { line_number := 40, text := [70, 61, 70, 42, 73] }, { line_number := 50, text := [130, 32, 73] }], current_line := some [{ line_number := 40, text := [70, 61, 70, 42, 73] }, { line_number := 50, text := [130, 32, 73] }], text_ptr := [70, 61, 70, 42, 73], vars := [{ name := { n0 := 73, n1 := 32, isString := false, isInteger := false }, value := CBASIC.Val.num { n := 1, d := 1 } }, { name := { n0 := 70, n1 := 32, isString := false, isInteger := false }, value := CBASIC.Val.num { n := 1, d := 1 } }, { name := { n0 := 78, n1 := 32, isString := false, isInteger := false }, value := CBASIC.Val.num { n := 5, d := 1 } }], arrays := [], stack := [CBASIC.StackEntry.forE { loop_var := { n0 := 73, n1 := 32, isString := false, isInteger := false }, step := { n := 1, d := 1 }, limit := { n := 5, d := 1 }, line_number := 30, text_ptr := [], line := some [{ line_number := 30, text := [129, 32, 73, 61, 49, 32, 159, 32, 78] }, { line_number := 40, text := [70, 61, 70, 42, 73] }, { line_number := 50, text := [130, 32, 73] }] }], stack_size := 512, running := true, direct_mode := false, current_line_num := 40, can_continue := true }

/-- Intermediate interpreter state 7 of the C6 scenario run. -/
def C6s7 : BasicState := { program := [{ line_number := 10, text := [78, 61, 53] }, { line_number := 20, text := [70, 61, 49] }, { line_number := 30, text := [129, 32, 73, 61, 49, 32, 159, 32, 78] }, { line_number := 40, text := [70, 61, 70, 42, 73] }, { line_number := 50, text := [130, 32, 73] }], current_line := some [{ line_number := 50, text := [130, 32, 73] }], text_ptr := [130, 32, 73], vars := [{ name := { n0 := 73, n1 := 32, isString := false, isInteger := false }, value := CBASIC.Val.num { n := 1, d := 1 } }, { name := { n0 := 70, n1 := 32, isString := false, isInteger := false }, value := CBASIC.Val.num { n := 1, d := 1 } }, { name := { n0 := 78, n1 := 32, isString := false, isInteger := false }, value := CBASIC.Val.num { n := 5, d := 1 } }], arrays := [], stack := [CBASIC.StackEntry.forE { loop_var := { n0 := 73, n1 := 32, isString := false, isInteger := false }, step := { n := 1, d := 1 }, limit := { n := 5, d := 1 }, line_number := 30, text_ptr := [], line := some [{ line_number := 30, text := [129, 32, 73, 61, 49, 32, 159, 32, 78] }, { line_number := 40, text := [70, 61, 70, 42, 73] }, { line_number := 50, text := [130, 32, 73] }] }], stack_size := 512, running := true, direct_mode := false, current_line_num := 50, can_continue := true }

/-- Intermediate interpreter state 8 of the C6 scenario run. -/
def C6s8 : BasicState := { program := [{ line_number := 10, text := [78, 61, 53] }, { line_number := 20, text := [70, 61, 49] }, { line_number := 30, text := [129, 32, 73, 61, 49, 32, 159, 32, 78] }, { line_number := 40, text := [70, 61, 70, 42, 73] }, { line_number := 50, text := [130, 32, 73] }], current_line := some [{ line_number := 40, text := [70, 61, 70, 42, 73] }, { line_number := 50, text := [130, 32, 73] }], text_ptr := [70, 61, 70, 42, 73], vars := [{ name := { n0 := 73, n1 := 32, isString := false, isInteger := false }, value := CBASIC.Val.num { n := 2, d := 1 } }, { name := { n0 := 70, n1 := 32, isString := false, isInteger := false }, value := CBASIC.Val.num { n := 1, d := 1 } }, { name := { n0 := 78, n1 := 32, isString := false, isInteger := false }, value := CBASIC.Val.num { n := 5, d := 1 } }], arrays := [], stack := [CBASIC.StackEntry.forE { loop_var := { n0 := 73, n1 := 32, isString := false, isInteger := false }, step := { n := 1, d := 1 }, limit := { n := 5, d := 1 }, line_number := 30, text_ptr := [], line := some [{ line_number := 30, text := [129, 32, 73, 61, 49, 32, 159, 32, 78] }, { line_number := 40, text := [70, 61, 70, 42, 73] }, { line_number := 50, text := [130, 32, 73] }] }], stack_size := 512, running := true, direct_mode := false, current_line_num := 40, can_continue := true }

/-- Intermediate interpreter state 9 of the C6 scenario run. -/
def C6s9 : BasicState := { program := [{ line_number := 10, text := [78, 61, 53] }, { line_number := 20, text := [70, 61, 49] }, { line_number := 30, text := [129, 32, 73, 61, 49, 32, 159, 32, 78] }, { line_number := 40, text := [70, 61, 70, 42, 73] }, { line_number := 50, text := [130, 32, 73] }], current_line := some [{ line_number := 50, text := [130, 32, 73] }], text_ptr := [130, 32, 73], vars := [{ name := { n0 := 73, n1 := 32, isString := false, isInteger := false }, value := CBASIC.Val.num { n := 2, d := 1 } }, { name := { n0 := 70, n1 := 32, isString := false, isInteger := false }, value := CBASIC.Val.num { n := 2, d := 1 } }, { name := { n0 := 78, n1 := 32, isString := false, isInteger := false }, value := CBASIC.Val.num { n := 5, d := 1 } }], arrays := [], stack := [CBASIC.StackEntry.forE { loop_var := { n0 := 73, n1 := 32, isString := false, isInteger := false }, step := { n := 1, d := 1 }, limit := { n := 5, d := 1 }, line_number := 30, text_ptr := [], line := some [{ line_number := 30, text := [129, 32, 73, 61, 49, 32, 159, 32, 78] }, { line_number := 40, text := [70, 61, 70, 42, 73] }, { line_number := 50, text := [130, 32, 73] }] }], stack_size := 512, running := true, direct_mode := false, current_line_num := 50, can_continue := true }

/-- Intermediate interpreter state 10 of the C6 scenario run. -/
def C6s10 : BasicState := { program := [{ line_number := 10, text := [78, 61, 53] }, { line_number := 20, text := [70, 61, 49] }, { line_number := 30, text := [129, 32, 73, 61, 49, 32, 159, 32, 78] }, { line_number := 40, text := [70, 61, 70, 42, 73] }, { line_number := 50, text := [130, 32, 73] }], current_line := some [{ line_number := 40, text := [70, 61, 70, 42, 73] }, { line_number := 50, text := [130, 32, 73] }], text_ptr := [70, 61, 70, 42, 73], vars := [{ name := { n0 := 73, n1 := 32, isString := false, isInteger := false }, value := CBASIC.Val.num { n := 3, d := 1 } }, { name := { n0 := 70, n1 := 32, isString := false, isInteger := false }, value := CBASIC.Val.num { n := 2, d := 1 } }, { name := { n0 := 78, n1 := 32, isString := false, isInteger := false }, value := CBASIC.Val.num { n := 5, d := 1 } }], arrays := [], stack := [CBASIC.StackEntry.forE { loop_var := { n0 := 73, n1 := 32, isString := false, isInteger := false }, step := { n := 1, d := 1 }, limit := { n := 5, d := 1 }, line_number := 30, text_ptr := [], line := some [{ line_number := 30, text := [129, 32, 73, 61, 49, 32, 159, 32, 78] }, { line_number := 40, text := [70, 61, 70, 42, 73] }, { line_number := 50, text := [130, 32, 73] }] }], stack_size := 512, running := true, direct_mode := false, current_line_num := 40, can_continue := true }

/-- Intermediate interpreter state 11 of the C6 scenario run. -/
def C6s11 : BasicState := { program := [{ line_number := 10, text := [78, 61, 53] }, { line_number := 20, text := [70, 61, 49] }, { line_number := 30, text := [129, 32, 73, 61, 49, 32, 159, 32, 78] }, { line_number := 40, text := [70, 61, 70, 42, 73] }, { line_number := 50, text := [130, 32, 73] }], current_line := some [{ line_number := 50, text := [130, 32, 73] }], text_ptr := [130, 32, 73], vars := [{ name := { n0 := 73, n1 := 32, isString := false, isInteger := false }, value := CBASIC.Val.num { n := 3, d := 1 } }, { name := { n0 := 70, n1 := 32, isString := false, isInteger := false }, value := CBASIC.Val.num { n := 6, d := 1 } }, { name := { n0 := 78, n1 := 32, isString := false, isInteger := false }, value := CBASIC.Val.num { n := 5, d := 1 } }], arrays := [], stack := [CBASIC.StackEntry.forE { loop_var := { n0 := 73, n1 := 32, isString := false, isInteger := false }, step := { n := 1, d := 1 }, limit := { n := 5, d := 1 }, line_number := 30, text_ptr := [], line := some [{ line_number := 30, text := [129, 32, 73, 61, 49, 32, 159, 32, 78] }, { line_number := 40, text := [70, 61, 70, 42, 73] }, { line_number := 50, text := [130, 32, 73] }] }], stack_size := 512, running := true, direct_mode := false, current_line_num := 50, can_continue := true }

/-- Intermediate interpreter state 12 of the C6 scenario run. -/
def C6s12 : BasicState := { program := [{ line_number := 10, text := [78, 61, 53] }, { line_number := 20, text := [70, 61, 49] }, { line_number := 30, text := [129, 32, 73, 61, 49, 32, 159, 32, 78] }, { line_number := 40, text := [70, 61, 70, 42, 73] }, { line_number := 50, text := [130, 32, 73] }], current_line := some [{ line_number := 40, text := [70, 61, 70, 42, 73] }, { line_number := 50, text := [130, 32, 73] }], text_ptr := [70, 61, 70, 42, 73], vars := [{ name := { n0 := 73, n1 := 32, isString := false, isInteger := false }, value := CBASIC.Val.num { n := 4, d := 1 } }, { name := { n0 := 70, n1 := 32, isString := false, isInteger := false }, value := CBASIC.Val.num { n := 6, d := 1 } }, { name := { n0 := 78, n1 := 32, isString := false, isInteger := false }, value := CBASIC.Val.num { n := 5, d := 1 } }], arrays := [], stack := [CBASIC.StackEntry.forE { loop_var := { n0 := 73, n1 := 32, isString := false, isInteger := false }, step := { n := 1, d := 1 }, limit := { n := 5, d := 1 }, line_number := 30, text_ptr := [], line := some [{ line_number := 30, text := [129, 32, 73, 61, 49, 32, 159, 32, 78] }, { line_number := 40, text := [70, 61, 70, 42, 73] }, { line_number := 50, text := [130, 32, 73] }] }], stack_size := 512, running := true, direct_mode := false, current_line_num := 40, can_continue := true }

/-- Intermediate interpreter state 13 of the C6 scenario run. -/
def C6s13 : BasicState := { program := [{ line_number := 10, text := [78, 61, 53] }, { line_number := 20, text := [70, 61, 49] }, { line_number := 30, text := [129, 32, 73, 61, 49, 32, 159, 32, 78] }, { line_number := 40, text := [70, 61, 70, 42, 73] }, { line_number := 50, text := [130, 32, 73] }], current_line := some [{ line_number := 50, text := [130, 32, 73] }], text_ptr := [130, 32, 73], vars := [{ name := { n0 := 73, n1 := 32, isString := false, isInteger := false }, value := CBASIC.Val.num { n := 4, d := 1 } }, { name := { n0 := 70, n1 := 32, isString := false, isInteger := false }, value := CBASIC.Val.num { n := 24, d := 1 } }, { name := { n0 := 78, n1 := 32, isString := false, isInteger := false }, value := CBASIC.Val.num { n := 5, d := 1 } }], arrays := [], stack := [CBASIC.StackEntry.forE { loop_var := { n0 := 73, n1 := 32, isString := false, isInteger := false }, step := { n := 1, d := 1 }, limit := { n := 5, d := 1 }, line_number := 30, text_ptr := [], line := some [{ line_number := 30, text := [129, 32, 73, 61, 49, 32, 159, 32, 78] }, { line_number := 40, text := [70, 61, 70, 42, 73] }, { line_number := 50, text := [130, 32, 73] }] }], stack_size := 512, running := true, direct_mode := false, current_line_num := 50, can_continue := true }

/-- Intermediate interpreter state 14 of the C6 scenario run. -/
def C6s14 : BasicState := { program := [{ line_number := 10, text := [78, 61, 53] }, { line_number := 20, text := [70, 61, 49] }, { line_number := 30, text := [129, 32, 73, 61, 49, 32, 159, 32, 78] }, { line_number := 40, text := [70, 61, 70, 42, 73] }, { line_number := 50, text := [130, 32, 73] }], current_line := some [{ line_number := 40, text := [70, 61, 70, 42, 73] }, { line_number := 50, text := [130, 32, 73] }], text_ptr := [70, 61, 70, 42, 73], vars := [{ name := { n0 := 73, n1 := 32, isString := false, isInteger := false }, value := CBASIC.Val.num { n := 5, d := 1 } }, { name := { n0 := 70, n1 := 32, isString := false, isInteger := false }, value := CBASIC.Val.num { n := 24, d := 1 } }, { name := { n0 := 78, n1 := 32, isString := false, isInteger := false }, value := CBASIC.Val.num { n := 5, d := 1 } }], arrays := [], stack := [CBASIC.StackEntry.forE { loop_var := { n0 := 73, n1 := 32, isString := false, isInteger := false }, step := { n := 1, d := 1 }, limit := { n := 5, d := 1 }, line_number := 30, text_ptr := [], line := some [{ line_number := 30, text := [129, 32, 73, 61, 49, 32, 159, 32, 78] }, { line_number := 40, text := [70, 61, 70, 42, 73] }, { line_number := 50, text := [130, 32, 73] }] }], stack_size := 512, running := true, direct_mode := false, current_line_num := 40, can_continue := true }

/-- Intermediate interpreter state 15 of the C6 scenario run. -/
def C6s15 : BasicState := { program := [{ line_number := 10, text := [78, 61, 53] }, { line_number := 20, text := [70, 61, 49] }, { line_number := 30, text := [129, 32, 73, 61, 49, 32, 159, 32, 78] }, { line_number := 40, text := [70, 61, 70, 42, 73] }, { line_number := 50, text := [130, 32, 73] }], current_line := some [{ line_number := 50, text := [130, 32, 73] }], text_ptr := [130, 32, 73], vars := [{ name := { n0 := 73, n1 := 32, isString := false, isInteger := false }, value := CBASIC.Val.num { n := 5, d := 1 } }, { name := { n0 := 70, n1 := 32, isString := false, isInteger := false }, value := CBASIC.Val.num { n := 120, d := 1 } }, { name := { n0 := 78, n1 := 32, isString := false, isInteger := false }, value := CBASIC.Val.num { n := 5, d := 1 } }], arrays := [], stack := [CBASIC.StackEntry.forE { loop_var := { n0 := 73, n1 := 32, isString := false, isInteger := false }, step := { n := 1, d := 1 }, limit := { n := 5, d := 1 }, line_number := 30, text_ptr := [], line := some [{ line_number := 30, text := [129, 32, 73, 61, 49, 32, 159, 32, 78] }, { line_number := 40, text := [70, 61, 70, 42, 73] }, { line_number := 50, text := [130, 32, 73] }] }], stack_size := 512, running := true, direct_mode := false, current_line_num := 50, can_continue := true }

/-- Intermediate interpreter state 16 of the C6 scenario run. -/
def C6s16 : BasicState := { program := [{ line_number := 10, text := [78, 61, 53] }, { line_number := 20, text := [70, 61, 49] }, { line_number := 30, text := [129, 32, 73, 61, 49, 32, 159, 32, 78] }, { line_number := 40, text := [70, 61, 70, 42, 73] }, { line_number := 50, text := [130, 32, 73] }], current_line := none, text_ptr := [], vars := [{ name := { n0 := 73, n1 := 32, isString := false, isInteger := false }, value := CBASIC.Val.num { n := 6, d := 1 } }, { name := { n0 := 70, n1 := 32, isString := false, isInteger := false }, value := CBASIC.Val.num { n := 120, d := 1 } }, { name := { n0 := 78, n1 := 32, isString := false, isInteger := false }, value := CBASIC.Val.num { n := 5, d := 1 } }], arrays := [], stack := [], stack_size := 512, running := false, direct_mode := false, current_line_num := 50, can_continue := true }

/-- Final result of the C6 scenario run. -/
def C6r : Option (ErrorCode × BasicState) := some (CBASIC.ErrorCode.ERR_NONE, { program := [{ line_number := 10, text := [78, 61, 53] }, { line_number := 20, text := [70, 61, 49] }, { line_number := 30, text := [129, 32, 73, 61, 49, 32, 159, 32, 78] }, { line_number := 40, text := [70, 61, 70, 42, 73] }, { line_number := 50, text := [130, 32, 73] }], current_line := none, text_ptr := [], vars := [{ name := { n0 := 73, n1 := 32, isString := false, isInteger := false }, value := CBASIC.Val.num { n := 6, d := 1 } }, { name := { n0 := 70, n1 := 32, isString := false, isInteger := false }, value := CBASIC.Val.num { n := 120, d := 1 } }, { name := { n0 := 78, n1 := 32, isString := false, isInteger := false }, value := CBASIC.Val.num { n := 5, d := 1 } }], arrays := [], stack := [], stack_size := 512, running := false, direct_mode := false, current_line_num := 50, can_continue := true })

/-- Intermediate interpreter state 0 of the C7 scenario run. -/
def C7s0 : BasicState := { program := [{ line_number := 10, text := [88, 61, 52] }, { line_number := 20, text := [144, 32, 88, 32, 136, 32, 49, 48, 48, 44, 50, 48, 48, 44, 51, 48, 48] }, { line_number := 30, text := [65, 61, 57, 57] }, { line_number := 40, text := [128] }, { line_number := 100, text := [65, 61, 49] }, { line_number := 200, text := [65, 61, 50] }, { line_number := 300, text := [65, 61, 51] }], current_line := none, text_ptr := [137], vars := [], arrays := [], stack := [], stack_size := 512, running := false, direct_mode := true, current_line_num := 0, can_continue := false }

/-- Intermediate interpreter state 1 of the C7 scenario run. -/
def C7s1 : BasicState := { program := [{ line_number := 10, text := [88, 61, 52] }, { line_number := 20, text := [144, 32, 88, 32, 136, 32, 49, 48, 48, 44, 50, 48, 48, 44, 51, 48, 48] }, { line_number := 30, text := [65, 61, 57, 57] }, { line_number := 40, text := [128] }, { line_number := 100, text := [65, 61, 49] }, { line_number := 200, text := [65, 61, 50] }, { line_number := 300, text := [65, 61, 51] }], current_line := some [{ line_number := 10, text := [88, 61, 52] }, { line_number := 20, text := [144, 32, 88, 32, 136, 32, 49, 48, 48, 44, 50, 48, 48, 44, 51, 48, 48] }, { line_number := 30, text := [65, 61, 57, 57] }, { line_number := 40, text := [128] }, { line_number := 100, text := [65, 61, 49] }, { line_number := 200, text := [65, 61, 50] }, { line_number := 300, text := [65, 61, 51] }], text_ptr := [88, 61, 52], vars := [], arrays := [], stack := [], stack_size := 512, running := true, direct_mode := true, current_line_num := 10, can_continue := true }

/-- Intermediate interpreter state 2 of the C7 scenario run. -/
def C7s2 : BasicState := { program := [{ line_number := 10, text := [88, 61, 52] }, { line_number := 20, text := [144, 32, 88, 32, 136, 32, 49, 48, 48, 44, 50, 48, 48, 44, 51, 48, 48] }, { line_number := 30, text := [65, 61, 57, 57] }, { line_number := 40, text := [128] }, { line_number := 100, text := [65, 61, 49] }, { line_number := 200, text := [65, 61, 50] }, { line_number := 300, text := [65, 61, 51] }], current_line := some [{ line_number := 10, text := [88, 61, 52] }, { line_number := 20, text := [144, 32, 88, 32, 136, 32, 49, 48, 48, 44, 50, 48, 48, 44, 51, 48, 48] }, { line_number := 30, text := [65, 61, 57, 57] }, { line_number := 40, text := [128] }, { line_number := 100, text := [65, 61, 49] }, { line_number := 200, text := [65, 61, 50] }, { line_number := 300, text := [65, 61, 51] }], text_ptr := [88, 61, 52], vars := [], arrays := [], stack := [], stack_size := 512, running := true, direct_mode := true, current_line_num := 10, can_continue := true }

/-- Intermediate interpreter state 3 of the C7 scenario run. -/
def C7s3 : BasicState := { program := [{ line_number := 10, text := [88, 61, 52] }, { line_number := 20, text := [144, 32, 88, 32, 136, 32, 49, 48, 48, 44, 50, 48, 48, 44, 51, 48, 48] }, { line_number := 30, text := [65, 61, 57, 57] }, { line_number := 40, text := [128] }, { line_number := 100, text := [65, 61, 49] }, { line_number := 200, text := [65, 61, 50] }, { line_number := 300, text := [65, 61, 51] }], current_line := some [{ line_number := 10, text := [88, 61, 52] }, { line_number := 20, text := [144, 32, 88, 32, 136, 32, 49, 48, 48, 44, 50, 48, 48, 44, 51, 48, 48] }, { line_number := 30, text := [65, 61, 57, 57] }, { line_number := 40, text := [128] }, { line_number := 100, text := [65, 61, 49] }, { line_number := 200, text := [65, 61, 50] }, { line_number := 300, text := [65, 61, 51] }], text_ptr := [88, 61, 52], vars := [], arrays := [], stack := [], stack_size := 512, running := true, direct_mode := false, current_line_num := 10, can_continue := true }

/-- Intermediate interpreter state 4 of the C7 scenario run. -/
def C7s4 : BasicState := { program := [{ line_number := 10, text := [88, 61, 52] }, { line_number := 20, text := [144, 32, 88, 32, 136, 32, 49, 48, 48, 44, 50, 48, 48, 44, 51, 48, 48] }, { line_number := 30, text := [65, 61, 57, 57] }, { line_number := 40, text := [128] }, { line_number := 100, text := [65, 61, 49] }, { line_number := 200, text := [65, 61, 50] }, { line_number := 300, text := [65, 61, 51] }], current_line := some [{ line_number := 20, text := [144, 32, 88, 32, 136, 32, 49, 48, 48, 44, 50, 48, 48, 44, 51, 48, 48] }, { line_number := 30, text := [65, 61, 57, 57] }, { line_number := 40, text := [128] }, { line_number := 100, text := [65, 61, 49] }, { line_number := 200, text := [65, 61, 50] }, { line_number := 300, text := [65, 61, 51] }], text_ptr := [144, 32, 88, 32, 136, 32, 49, 48, 48, 44, 50, 48, 48, 44, 51, 48, 48], vars := [{ name := { n0 := 88, n1 := 32, isString := false, isInteger := false }, value := CBASIC.Val.num { n := 4, d := 1 } }], arrays := [], stack := [], stack_size := 512, running := true, direct_mode := false, current_line_num := 20, can_continue := true }

/-- Intermediate interpreter state 5 of the C7 scenario run. -/
def C7s5 : BasicState := { program := [{ line_number := 10, text := [88, 61, 52] }, { line_number := 20, text := [144, 32, 88, 32, 136, 32, 49, 48, 48, 44, 50, 48, 48, 44, 51, 48, 48] }, { line_number := 30, text := [65, 61, 57, 57] }, { line_number := 40, text := [128] }, { line_number := 100, text := [65, 61, 49] }, { line_number := 200, text := [65, 61, 50] }, { line_number := 300, text := [65, 61, 51] }], current_line := some [{ line_number := 30, text := [65, 61, 57, 57] }, { line_number := 40, text := [128] }, { line_number := 100, text := [65, 61, 49] }, { line_number := 200, text := [65, 61, 50] }, { line_number := 300, text := [65, 61, 51] }], text_ptr := [65, 61, 57, 57], vars := [{ name := { n0 := 88, n1 := 32, isString := false, isInteger := false }, value := CBASIC.Val.num { n := 4, d := 1 } }], arrays := [], stack := [], stack_size := 512, running := true, direct_mode := false, current_line_num := 30, can_continue := true }

/-- Intermediate interpreter state 6 of the C7 scenario run. -/
def C7s6 : BasicState := { program := [{ line_number := 10, text := [88, 61, 52] }, { line_number := 20, text := [144, 32, 88, 32, 136, 32, 49, 48, 48, 44, 50, 48, 48, 44, 51, 48, 48] }, { line_number := 30, text := [65, 61, 57, 57] }, { line_number := 40, text := [128] }, { line_number := 100, text := [65, 61, 49] }, { line_number := 200, text := [65, 61, 50] }, { line_number := 300, text := [65, 61, 51] }], current_line := some [{ line_number := 40, text := [128] }, { line_number := 100, text := [65, 61, 49] }, { line_number := 200, text := [65, 61, 50] }, { line_number := 300, text := [65, 61, 51] }], text_ptr := [128], vars := [{ name := { n0 := 65, n1 := 32, isString := false, isInteger := false }, value := CBASIC.Val.num { n := 99, d := 1 } }, { name := { n0 := 88, n1 := 32, isString := false, isInteger := false }, value := CBASIC.Val.num { n := 4, d := 1 } }], arrays := [], stack := [], stack_size := 512, running := true, direct_mode := false, current_line_num := 40, can_continue := true }

/-- Intermediate interpreter state 7 of the C7 scenario run. -/
def C7s7 : BasicState := { program := [{ line_number := 10, text := [88, 61, 52] }, { line_number := 20, text := [144, 32, 88, 32, 136, 32, 49, 48, 48, 44, 50, 48, 48, 44, 51, 48, 48] }, { line_number := 30, text := [65, 61, 57, 57] }, { line_number := 40, text := [128] }, { line_number := 100, text := [65, 61, 49] }, { line_number := 200, text := [65, 61, 50] }, { line_number := 300, text := [65, 61, 51] }], current_line := some [{ line_number := 100, text := [65, 61, 49] }, { line_number := 200, text := [65, 61, 50] }, { line_number := 300, text := [65, 61, 51] }], text_ptr := [65, 61, 49], vars := [{ name := { n0 := 65, n1 := 32, isString := false, isInteger := false }, value := CBASIC.Val.num { n := 99, d := 1 } }, { name := { n0 := 88, n1 := 32, isString := false, isInteger := false }, value := CBASIC.Val.num { n := 4, d := 1 } }], arrays := [], stack := [], stack_size := 512, running := false, direct_mode := false, current_line_num := 100, can_continue := false }

/-- Final result of the C7 scenario run. -/
def C7r : Option (ErrorCode × BasicState) := some (CBASIC.ErrorCode.ERR_NONE, { program := [{ line_number := 10, text := [88, 61, 52] }, { line_number := 20, text := [144, 32, 88, 32, 136, 32, 49, 48, 48, 44, 50, 48, 48, 44, 51, 48, 48] }, { line_number := 30, text := [65, 61, 57, 57] }, { line_number := 40, text := [128] }, { line_number := 100, text := [65, 61, 49] }, { line_number := 200, text := [65, 61, 50] }, { line_number := 300, text := [65, 61, 51] }], current_line := some [{ line_number := 100, text := [65, 61, 49] }, { line_number := 200, text := [65, 61, 50] }, { line_number := 300, text := [65, 61, 51] }], text_ptr := [65, 61, 49], vars := [{ name := { n0 := 65, n1 := 32, isString := false, isInteger := false }, value := CBASIC.Val.num { n := 99, d := 1 } }, { name := { n0 := 88, n1 := 32, isString := false, isInteger := false }, value := CBASIC.Val.num { n := 4, d := 1 } }], arrays := [], stack := [], stack_size := 512, running := false, direct_mode := false, current_line_num := 100, can_continue := false })

/-- Input state of the ON-GOTO fall-through witness: the cursor sits on
`4` TOK_GOTO `100,200,300` with an empty program. -/
def C7W : BasicState := { program := [], current_line := none, text_ptr := [52, 136, 49, 48, 48, 44, 50, 48, 48, 44, 51, 48, 48], vars := [], arrays := [], stack := [], stack_size := 512, running := false, direct_mode := true, current_line_num := 0, can_continue := false }

/-- State after evaluating the index expression of the witness. -/
def C7W1 : BasicState := { program := [], current_line := none, text_ptr := [136, 49, 48, 48, 44, 50, 48, 48, 44, 51, 48, 48], vars := [], arrays := [], stack := [], stack_size := 512, running := false, direct_mode := true, current_line_num := 0, can_continue := false }

/-- State after consuming the GOTO token in the witness. -/
def C7W2 : BasicState := { program := [], current_line := none, text_ptr := [49, 48, 48, 44, 50, 48, 48, 44, 51, 48, 48], vars := [], arrays := [], stack := [], stack_size := 512, running := false, direct_mode := true, current_line_num := 0, can_continue := false }

/-- State after scanning the three line-number targets in the witness. -/
def C7W3 : BasicState := { program := [], current_line := none, text_ptr := [], vars := [], arrays := [], stack := [], stack_size := 512, running := false, direct_mode := true, current_line_num := 0, can_continue := false }

/- ===================================================================
Theorems
=================================================================== -/

/-- Facts about the reserved-word table needed for the round-trip law:
every word is nonempty, every token byte is a token (≥ 0x80, hence
neither NUL nor a quote), and the detokenization table maps the token
back to exactly the reserved word's spelling. -/
theorem reserved_words_table_facts :
    ∀ p ∈ reserved_words,
      1 ≤ p.1.length ∧ 128 ≤ p.2 ∧ token_strings.get? (p.2 - 128) = some p.1 := by
  decide

theorem IS_TOKEN_eq_false {c : Nat} (h : c < 128) : IS_TOKEN c = false := by
  simp only [IS_TOKEN, decide_eq_false_iff_not]
  omega

theorem TOUPPER_lt_128 {c : Nat} (h : c < 128) : TOUPPER c < 128 := by
  unfold TOUPPER
  by_cases hc : 97 ≤ c ∧ c ≤ 122
  · rw [if_pos hc]; omega
  · rw [if_neg hc]; omega

theorem TOUPPER_ne_zero {c : Nat} (h : c ≠ 0) : TOUPPER c ≠ 0 := by
  unfold TOUPPER
  by_cases hc : 97 ≤ c ∧ c ≤ 122
  · rw [if_pos hc]; omega
  · rw [if_neg hc]; omega

theorem TOUPPER_ne_quote {c : Nat} (h : c ≠ 34) : TOUPPER c ≠ 34 := by
  unfold TOUPPER
  by_cases hc : 97 ≤ c ∧ c ≤ 122
  · rw [if_pos hc]; omega
  · rw [if_neg hc]; omega

/-- Round-trip invariant: running the detokenizer over the tokenizer's
output reproduces the spec-level canonical text, in any mode, as long as
the source bytes are ASCII (< 0x80).  The string-mode flag of the
detokenizer stays aligned with the tokenizer's because quotes pass
through both verbatim and no emitted token byte or canonical word
contains a quote. -/
theorem detok_tok_aux (fuel : Nat) (src : List Nat) (instr indata inrem : Bool)
    (hf : src.length ≤ fuel) (h : ∀ c ∈ src, c < 128) :
    basic_detokenize_aux (basic_tokenize_aux fuel src instr indata inrem) instr
      = spec_canonical_aux fuel src instr indata inrem := by
  induction fuel generalizing src instr indata inrem with
  | zero =>
    have hs : src = [] := List.length_eq_zero.mp (Nat.le_zero.mp hf)
    subst hs
    rfl
  | succ f ih =>
    match src with
    | [] => rfl
    | c :: rest =>
      have hc : c < 128 := h c (List.mem_cons_self _ _)
      have hrest : ∀ b ∈ rest, b < 128 := fun b hb => h b (List.mem_cons_of_mem c hb)
      have hfr : rest.length ≤ f := by
        simpa using hf
      simp only [basic_tokenize_aux, spec_canonical_aux]
      by_cases h0 : c = 0
      · simp [h0, basic_detokenize_aux]
      · rw [if_neg h0, if_neg h0]
        by_cases h34 : c = 34
        · subst h34
          rw [if_pos rfl, if_pos rfl]
          simp only [basic_detokenize_aux, if_neg h0, if_pos rfl]
          exact congrArg _ (ih rest (!instr) indata inrem hfr hrest)
        · rw [if_neg h34, if_neg h34]
          by_cases hstr : instr
          · rw [if_pos hstr, if_pos hstr]
            simp only [basic_detokenize_aux, if_neg h0, if_neg h34, if_pos hstr]
            exact congrArg _ (ih rest instr indata inrem hfr hrest)
          · rw [if_neg hstr, if_neg hstr]
            have hdet : ∀ l : List Nat,
                basic_detokenize_aux (c :: l) instr = c :: basic_detokenize_aux l instr := by
              intro l
              simp only [basic_detokenize_aux, if_neg h0, if_neg h34, if_neg hstr,
                IS_TOKEN_eq_false hc, Bool.false_eq_true, if_false]
            by_cases hrem : inrem
            · rw [if_pos hrem, if_pos hrem, hdet]
              exact congrArg _ (ih rest instr indata inrem hfr hrest)
            · rw [if_neg hrem, if_neg hrem]
              by_cases hdata : indata
              · rw [if_pos hdata, if_pos hdata]
                by_cases h58 : c = 58
                · rw [if_pos h58, if_pos h58, hdet]
                  exact congrArg _ (ih rest instr false inrem hfr hrest)
                · rw [if_neg h58, if_neg h58, hdet]
                  exact congrArg _ (ih rest instr indata inrem hfr hrest)
              · rw [if_neg hdata, if_neg hdata]
                by_cases h32 : c = 32
                · rw [if_pos h32, if_pos h32, hdet]
                  exact congrArg _ (ih rest instr indata inrem hfr hrest)
                · rw [if_neg h32, if_neg h32]
                  by_cases h58 : c = 58
                  · rw [if_pos h58, if_pos h58, hdet]
                    exact congrArg _ (ih rest instr indata inrem hfr hrest)
                  · rw [if_neg h58, if_neg h58]
                    rcases hfind : findReserved (c :: rest) with _ | ⟨w, tok⟩
                    · simp only [hfind, hdet]
                      have hcup : TOUPPER c < 128 := TOUPPER_lt_128 hc
                      have hdet2 : basic_detokenize_aux (TOUPPER c :: basic_tokenize_aux f rest instr indata inrem) instr
                          = TOUPPER c :: basic_detokenize_aux (basic_tokenize_aux f rest instr indata inrem) instr := by
                        simp only [basic_detokenize_aux, if_neg (TOUPPER_ne_zero h0),
                          if_neg (TOUPPER_ne_quote h34), if_neg hstr,
                          IS_TOKEN_eq_false hcup, Bool.false_eq_true, if_false]
                      rw [hdet2]
                      exact congrArg _ (ih rest instr indata inrem hfr hrest)
                    · simp only [hfind]
                      have hmem : (w, tok) ∈ reserved_words :=
                        List.mem_of_find?_eq_some hfind
                      obtain ⟨hw1, htok, hget⟩ := reserved_words_table_facts _ hmem
                      dsimp only at hw1 htok hget
                      have htok0 : tok ≠ 0 := by omega
                      have htok34 : tok ≠ 34 := by omega
                      have hdrop : (rest.drop (w.length - 1)).length ≤ f := by
                        rw [List.length_drop]
                        omega
                      have hdropm : ∀ b ∈ rest.drop (w.length - 1), b < 128 :=
                        fun b hb => hrest b (List.drop_subset _ _ hb)
                      have hdet3 : basic_detokenize_aux
                            (tok :: basic_tokenize_aux f (rest.drop (w.length - 1)) instr
                              (tok == TOK_DATA) (tok == TOK_REM)) instr
                          = w ++ basic_detokenize_aux
                              (basic_tokenize_aux f (rest.drop (w.length - 1)) instr
                                (tok == TOK_DATA) (tok == TOK_REM)) instr := by
                        simp only [basic_detokenize_aux, if_neg htok0, if_neg htok34,
                          if_neg hstr]
                        rw [if_pos (by simpa [IS_TOKEN] using htok), hget]
                      rw [hdet3]
                      exact congrArg _
                        (ih (rest.drop (w.length - 1)) instr (tok == TOK_DATA)
                          (tok == TOK_REM) hdrop hdropm)


/-- Unfolding `basic_run_steps` one iteration that continues. -/
theorem run_steps_cont (pf fuel : Nat) (st st' : BasicState)
    (h : basic_run_step pf st = Sum.inr st') :
    basic_run_steps pf (fuel + 1) st = basic_run_steps pf fuel st' := by
  simp [basic_run_steps, h]

/-- Unfolding `basic_run_steps` one iteration that exits the loop. -/
theorem run_steps_done (pf fuel : Nat) (st : BasicState)
    (r : Option (ErrorCode × BasicState))
    (h : basic_run_step pf st = Sum.inl r) :
    basic_run_steps pf (fuel + 1) st = r := by
  simp [basic_run_steps, h]

/-- Unfolding `execute_line_loop` one iteration that continues. -/
theorem line_loop_cont (pf fuel : Nat) (st st' : BasicState)
    (h : execute_line_step pf st = LineStep.cont st') :
    execute_line_loop pf (fuel + 1) st = execute_line_loop pf fuel st' := by
  simp [execute_line_loop, h]

/-- Unfolding `execute_line_loop` at an iteration that hands over to
`basic_run`. -/
theorem line_loop_toRun (pf fuel : Nat) (st st' : BasicState)
    (h : execute_line_step pf st = LineStep.toRun st') :
    execute_line_loop pf (fuel + 1) st = basic_run_steps pf fuel (basic_run_prep st') := by
  simp [execute_line_loop, basic_run, h]

/-- Unfolding `execute_line_loop` one iteration that exits. -/
theorem line_loop_done (pf fuel : Nat) (st : BasicState)
    (r : Option (ErrorCode × BasicState))
    (h : execute_line_step pf st = LineStep.done r) :
    execute_line_loop pf (fuel + 1) st = r := by
  simp [execute_line_loop, h]

/-- `basic_execute_line` on a line that does not begin with a digit
(after leading spaces) tokenizes it and enters the direct-mode
statement loop. -/
theorem execute_line_direct (pf fuel : Nat) (st : BasicState) (line : List Nat)
    (h : IS_DIGIT ((skipSpacesOnly line).headD 0) = false) :
    basic_execute_line pf fuel st line
      = execute_line_loop pf fuel (basic_direct_prep st (skipSpacesOnly line)) := by
  unfold basic_execute_line
  simp only [List.headD_eq_head?_getD] at h
  simp [h]

/-- C9: for every interpreter RND state, `RND(0)` returns the value
encoded by the current 5-byte seed and leaves the seed (the only state
`basic_fn_rnd` touches) unchanged. -/
theorem claim_C9_rnd_zero (seed : Fac5) :
    basic_fn_rnd seed 0 = (msbas_to_double seed, seed) := rfl

/-- C2 as stated is false at the input it names: evaluating `-2^2`
yields 4, not -4 (the power routine parses its left operand through
`eval_unary`, so the minus is applied before exponentiation). -/
theorem claim_C2_counterexample :
    (basic_evaluate 20 { basic_init with text_ptr := strBytes "-2^2" }).map
        (fun r => (r.1, r.2.1))
      = some (ErrorCode.ERR_NONE, Val.num ⟨4, 1⟩)
    ∧ Q.beq ⟨4, 1⟩ (Q.neg ⟨2, 1⟩) = false
    ∧ Q.beq ⟨4, 1⟩ ⟨-4, 1⟩ = false := by decide

/-- C2 amended: evaluating `-2^2` yields 4: `eval_power` obtains its
left operand from `eval_unary`, so unary minus binds tighter than `^`
and `-2^2` computes `(-2)^2` (`2^3^2` still associates to the right,
giving 512). -/
theorem claim_C2_amended_power_unary :
    (basic_evaluate 20 { basic_init with text_ptr := strBytes "-2^2" }).map
        (fun r => (r.1, r.2.1))
      = some (ErrorCode.ERR_NONE, Val.num ⟨4, 1⟩)
    ∧ (basic_evaluate 20 { basic_init with text_ptr := strBytes "2^3^2" }).map
        (fun r => (r.1, r.2.1))
      = some (ErrorCode.ERR_NONE, Val.num ⟨512, 1⟩) := by decide

/-- C6: running the factorial program terminates normally with `F = 120`
and `I = 6` (the final `NEXT` adds the step 1 to `I`, reaching 6, which
exceeds the limit 5 with step ≥ 0 and so ends the loop). -/
theorem claim_C6_factorial :
    (basic_execute_line 25 16 (loadProgram factorialProgram) (strBytes "RUN")).map
        (fun r => (r.1, getVarNum r.2 (strBytes "F"), getVarNum r.2 (strBytes "I")))
      = some (ErrorCode.ERR_NONE, some ⟨120, 1⟩, some ⟨6, 1⟩) := by
  have hrun : basic_execute_line 25 16 (loadProgram factorialProgram) (strBytes "RUN")
      = C6r := by
    calc basic_execute_line 25 16 (loadProgram factorialProgram) (strBytes "RUN")
        = execute_line_loop 25 16 (basic_direct_prep (loadProgram factorialProgram)
            (skipSpacesOnly (strBytes "RUN"))) :=
          execute_line_direct 25 16 (loadProgram factorialProgram) (strBytes "RUN") (by decide)
      _ = execute_line_loop 25 16 C6s0 := by
          rw [show basic_direct_prep (loadProgram factorialProgram)
            (skipSpacesOnly (strBytes "RUN")) = C6s0 from by decide]
      _ = execute_line_loop 25 15 C6s1 := line_loop_cont 25 15 C6s0 C6s1 (by decide)
      _ = basic_run_steps 25 14 (basic_run_prep C6s2) :=
          line_loop_toRun 25 14 C6s1 C6s2 (by decide)
      _ = basic_run_steps 25 14 C6s3 := by
          rw [show basic_run_prep C6s2 = C6s3 from by decide]
      _ = basic_run_steps 25 13 C6s4 := run_steps_cont 25 13 C6s3 C6s4 (by decide)
      _ = basic_run_steps 25 12 C6s5 := run_steps_cont 25 12 C6s4 C6s5 (by decide)
      _ = basic_run_steps 25 11 C6s6 := run_steps_cont 25 11 C6s5 C6s6 (by decide)
      _ = basic_run_steps 25 10 C6s7 := run_steps_cont 25 10 C6s6 C6s7 (by decide)
      _ = basic_run_steps 25 9 C6s8 := run_steps_cont 25 9 C6s7 C6s8 (by decide)
      _ = basic_run_steps 25 8 C6s9 := run_steps_cont 25 8 C6s8 C6s9 (by decide)
      _ = basic_run_steps 25 7 C6s10 := run_steps_cont 25 7 C6s9 C6s10 (by decide)
      _ = basic_run_steps 25 6 C6s11 := run_steps_cont 25 6 C6s10 C6s11 (by decide)
      _ = basic_run_steps 25 5 C6s12 := run_steps_cont 25 5 C6s11 C6s12 (by decide)
      _ = basic_run_steps 25 4 C6s13 := run_steps_cont 25 4 C6s12 C6s13 (by decide)
      _ = basic_run_steps 25 3 C6s14 := run_steps_cont 25 3 C6s13 C6s14 (by decide)
      _ = basic_run_steps 25 2 C6s15 := run_steps_cont 25 2 C6s14 C6s15 (by decide)
      _ = basic_run_steps 25 1 C6s16 := run_steps_cont 25 1 C6s15 C6s16 (by decide)
      _ = C6r := run_steps_done 25 0 C6s16 C6r (by decide)
  rw [hrun]
  decide

/-- C7: an `ON expr GOTO/GOSUB n1,…,nk` whose truncated index is below 1
or above the number k of scanned targets returns `ERR_NONE` with the
state exactly as the target scan left it — no jump, no pushed frame —
and the ON-GOTO scenario program ends with `A = 99`. -/
theorem claim_C7_on_fallthrough :
    (∀ (fuel : Nat) (st st1 st2 st3 : BasicState) (idx : Q) (count : Nat) (target : Int),
      basic_eval_numeric fuel st = some (ErrorCode.ERR_NONE, idx, st1) →
      (txt (basic_skip_spaces st1) 0 = TOK_GOTO ∨ txt (basic_skip_spaces st1) 0 = TOK_GOSUB) →
      st2 = adv (basic_skip_spaces st1) 1 →
      stmt_on_loop fuel (Q.trunc idx) 0 0 st2 = some (ErrorCode.ERR_NONE, (count, target), st3) →
      Q.trunc idx < 1 ∨ Q.trunc idx > (count : Int) →
      stmt_on fuel st = some (ErrorCode.ERR_NONE, st3))
    ∧ (basic_execute_line 25 7 (loadProgram onGotoProgram) (strBytes "RUN")).map
        (fun r => (r.1, getVarNum r.2 (strBytes "A")))
      = some (ErrorCode.ERR_NONE, some ⟨99, 1⟩) := by
  constructor
  · intro fuel st st1 st2 st3 idx count target heval hdir hst2 hloop hrange
    unfold stmt_on
    rw [heval]
    have hne : ¬ (ErrorCode.ERR_NONE ≠ ErrorCode.ERR_NONE) := by simp
    dsimp only
    rw [if_neg hne]
    rcases hdir with hGOTO | hGOSUB
    · rw [if_pos hGOTO]
      dsimp only
      rw [← hst2, hloop]
      dsimp only
      rw [if_neg hne, if_pos hrange]
    · have hneq : ¬ (txt (basic_skip_spaces st1) 0 = TOK_GOTO) := by
        rw [hGOSUB]; decide
      rw [if_neg hneq, if_pos hGOSUB]
      dsimp only
      rw [← hst2, hloop]
      dsimp only
      rw [if_neg hne, if_pos hrange]
  · have hrun : basic_execute_line 25 7 (loadProgram onGotoProgram) (strBytes "RUN")
        = C7r := by
      calc basic_execute_line 25 7 (loadProgram onGotoProgram) (strBytes "RUN")
          = execute_line_loop 25 7 (basic_direct_prep (loadProgram onGotoProgram)
              (skipSpacesOnly (strBytes "RUN"))) :=
            execute_line_direct 25 7 (loadProgram onGotoProgram) (strBytes "RUN") (by decide)
        _ = execute_line_loop 25 7 C7s0 := by
            rw [show basic_direct_prep (loadProgram onGotoProgram)
              (skipSpacesOnly (strBytes "RUN")) = C7s0 from by decide]
        _ = execute_line_loop 25 6 C7s1 := line_loop_cont 25 6 C7s0 C7s1 (by decide)
        _ = basic_run_steps 25 5 (basic_run_prep C7s2) :=
            line_loop_toRun 25 5 C7s1 C7s2 (by decide)
        _ = basic_run_steps 25 5 C7s3 := by
            rw [show basic_run_prep C7s2 = C7s3 from by decide]
        _ = basic_run_steps 25 4 C7s4 := run_steps_cont 25 4 C7s3 C7s4 (by decide)
        _ = basic_run_steps 25 3 C7s5 := run_steps_cont 25 3 C7s4 C7s5 (by decide)
        _ = basic_run_steps 25 2 C7s6 := run_steps_cont 25 2 C7s5 C7s6 (by decide)
        _ = basic_run_steps 25 1 C7s7 := run_steps_cont 25 1 C7s6 C7s7 (by decide)
        _ = C7r := run_steps_done 25 0 C7s7 C7r (by decide)
    rw [hrun]
    decide

/-- Witness for C7: the fall-through case of `stmt_on` at the concrete
input `4 GOTO 100,200,300` (index 4 of 3 targets). -/
theorem claim_C7_witness :
    stmt_on 20 C7W = some (ErrorCode.ERR_NONE, C7W3) :=
  claim_C7_on_fallthrough.1 20 C7W C7W1 C7W2 C7W3 ⟨4, 1⟩ 3 0 (by decide)
    (by decide) (by decide) (by decide) (by decide)

/-- C1 as stated is false: with only line 30 stored, `GOTO 10` neither
returns `ERR_US` nor refuses to transfer control — it jumps to line 30
(`basic_goto_line` falls forward to the next stored line). -/
theorem claim_C1_counterexample :
    (stmt_goto 20 C1_state).map (fun r => (r.1, r.2.current_line_num))
      = some (ErrorCode.ERR_NONE, 30)
    ∧ ErrorCode.ERR_NONE ≠ ErrorCode.ERR_US := by decide

/-- C3 as stated is false: deleting stored line 10 by entering a bare
`10` is a program-store mutation, yet `can_continue` stays true
(`basic_store_line`'s deletion path never clears it). -/
theorem claim_C3_counterexample :
    basic_store_line C3_state (strBytes "10")
      = (true, { C3_state with program := [] })
    ∧ { C3_state with program := ([] : List ProgramLine) }.can_continue = true := by decide

/-- C4 as stated is false in the loop-continuing case: `NEXT I` with a
GosubFrame above the matching ForFrame re-enters the loop (it jumps
back to the FOR's line 30) but leaves the stack untouched — the
intervening GosubFrame is not discarded. -/
theorem claim_C4_counterexample :
    (stmt_next C4_state).1 = ErrorCode.ERR_NONE
    ∧ (stmt_next C4_state).2.current_line_num = 30
    ∧ (stmt_next C4_state).2.stack
        = [StackEntry.gosubE C4_gosubEntry, StackEntry.forE C4_forEntry]
    ∧ entry_is_gosub (StackEntry.gosubE C4_gosubEntry) = true := by decide

/-- C5: for every ASCII source line, detokenizing its tokenized form
yields the canonical text: characters inside strings, after REM and in
DATA payloads are preserved; elsewhere letters are uppercased and each
reserved word reappears as its canonical spelling. -/
theorem claim_C5_roundtrip (line : List Nat) (h : ∀ c ∈ line, c < 128) :
    basic_detokenize (basic_tokenize line) = spec_canonical line :=
  detok_tok_aux line.length line false false false (Nat.le_refl _) h

/-- Witness for C5 at a concrete line mixing a string, lowercase code
and a REM payload. -/
theorem claim_C5_witness :
    (∀ c ∈ strBytes "10 print \"Hi\":rem Ab", c < 128)
    ∧ basic_detokenize (basic_tokenize (strBytes "10 print \"Hi\":rem Ab"))
        = spec_canonical (strBytes "10 print \"Hi\":rem Ab") :=
  ⟨by decide, claim_C5_roundtrip (strBytes "10 print \"Hi\":rem Ab") (by decide)⟩

/-- `delete_line_aux` only removes entries. -/
theorem delete_line_sublist (p : List ProgramLine) (n : Int) :
    List.Sublist (delete_line_aux p n) p := by
  induction p with
  | nil => simp [delete_line_aux]
  | cons a rest ih =>
    unfold delete_line_aux
    by_cases h1 : a.line_number = n
    · rw [if_pos h1]
      exact List.sublist_cons_self a rest
    · rw [if_neg h1]
      by_cases h2 : a.line_number > n
      · rw [if_pos h2]
      · rw [if_neg h2]
        exact ih.cons₂ a

/-- Deleting preserves the strict order of the program store. -/
theorem delete_line_sorted (p : List ProgramLine) (n : Int) (h : ProgramSorted p) :
    ProgramSorted (delete_line_aux p n) :=
  List.Pairwise.sublist (delete_line_sublist p n) h

/-- In a strictly sorted store, deleting `n` leaves no line numbered `n`. -/
theorem delete_line_not_mem (p : List ProgramLine) (n : Int) (h : ProgramSorted p) :
    ∀ l ∈ delete_line_aux p n, l.line_number ≠ n := by
  induction p with
  | nil => simp [delete_line_aux]
  | cons a rest ih =>
    have hp := List.pairwise_cons.mp h
    unfold delete_line_aux
    by_cases h1 : a.line_number = n
    · rw [if_pos h1]
      intro l hl
      have := hp.1 l hl
      omega
    · rw [if_neg h1]
      by_cases h2 : a.line_number > n
      · rw [if_pos h2]
        intro l hl
        rcases List.mem_cons.mp hl with rfl | hl
        · omega
        · have := hp.1 l hl
          omega
      · rw [if_neg h2]
        intro l hl
        rcases List.mem_cons.mp hl with rfl | hl
        · omega
        · exact ih hp.2 l hl

/-- Members of `insert_line` are the new line or old members. -/
theorem insert_line_mem (p : List ProgramLine) (nl : ProgramLine) :
    ∀ x ∈ insert_line p nl, x = nl ∨ x ∈ p := by
  induction p with
  | nil => simp [insert_line]
  | cons a rest ih =>
    unfold insert_line
    by_cases h1 : a.line_number < nl.line_number
    · rw [if_pos h1]
      intro x hx
      rcases List.mem_cons.mp hx with rfl | hx
      · exact Or.inr (List.mem_cons_self _ _)
      · rcases ih x hx with h | h
        · exact Or.inl h
        · exact Or.inr (List.mem_cons_of_mem _ h)
    · rw [if_neg h1]
      intro x hx
      rcases List.mem_cons.mp hx with rfl | hx
      · exact Or.inl rfl
      · exact Or.inr hx

/-- Inserting a line whose number is absent keeps the store strictly
sorted. -/
theorem insert_line_sorted (p : List ProgramLine) (nl : ProgramLine)
    (h : ProgramSorted p) (hne : ∀ l ∈ p, l.line_number ≠ nl.line_number) :
    ProgramSorted (insert_line p nl) := by
  induction p with
  | nil => simp [insert_line, ProgramSorted]
  | cons a rest ih =>
    have hp := List.pairwise_cons.mp h
    unfold insert_line
    by_cases h1 : a.line_number < nl.line_number
    · rw [if_pos h1]
      refine List.pairwise_cons.mpr ⟨?_, ih hp.2 (fun l hl => hne l (List.mem_cons_of_mem _ hl))⟩
      intro x hx
      rcases insert_line_mem rest nl x hx with rfl | hx
      · exact h1
      · exact hp.1 x hx
    · rw [if_neg h1]
      have hna : nl.line_number < a.line_number := by
        have := hne a (List.mem_cons_self _ _)
        omega
      refine List.pairwise_cons.mpr ⟨?_, h⟩
      intro x hx
      rcases List.mem_cons.mp hx with rfl | hx
      · exact hna
      · have := hp.1 x hx
        omega

/-- C3 amended: every mutation of the program store keeps it strictly
ascending and duplicate-free; the tokenize-and-insert path clears
`can_continue`, but pure deletion (`basic_delete_line`, reached by
storing a bare line number) preserves it. -/
theorem claim_C3_amended :
    (∀ (st : BasicState) (l : List Nat), ProgramSorted st.program →
        ProgramSorted ((basic_store_line st l).2.program))
    ∧ (∀ (st : BasicState) (n : Int) (body : List Nat),
        (store_line_insert st n body).can_continue = false)
    ∧ (∀ (st : BasicState) (n : Int),
        (basic_delete_line st n).can_continue = st.can_continue
        ∧ (ProgramSorted st.program → ProgramSorted ((basic_delete_line st n).program))) := by
  refine ⟨?_, fun st n body => rfl, fun st n => ⟨rfl, fun h => delete_line_sorted _ _ h⟩⟩
  intro st l h
  unfold basic_store_line
  dsimp only
  split
  · exact h
  · split
    · exact h
    · split
      · exact delete_line_sorted _ _ h
      · unfold store_line_insert basic_delete_line
        dsimp only
        exact insert_line_sorted _ _ (delete_line_sorted _ _ h) (delete_line_not_mem _ _ h)

/-- Witness for C3: storing `20 B=2` over the sorted one-line store of
the C3 scenario keeps the store sorted. -/
theorem claim_C3_witness :
    ProgramSorted ((basic_store_line C3_state (strBytes "20 B=2")).2.program) :=
  claim_C3_amended.1 C3_state (strBytes "20 B=2") (by
    unfold ProgramSorted C3_state
    simp)

/-- `findGosub` skips non-GOSUB frames and returns the first GOSUB
frame together with the stack below it. -/
theorem findGosub_append (pre below : List StackEntry) (g : GosubEntry)
    (h : ∀ e ∈ pre, entry_is_gosub e = false) :
    findGosub (pre ++ StackEntry.gosubE g :: below) = some (g, below) := by
  induction pre with
  | nil => rfl
  | cons a pre ih =>
    cases a with
    | gosubE x =>
      have := h _ (List.mem_cons_self _ _)
      simp [entry_is_gosub] at this
    | forE f =>
      simp only [List.cons_append, findGosub]
      exact ih (fun e he => h e (List.mem_cons_of_mem _ he))

/-- A stack with no GOSUB frame makes `findGosub` fail. -/
theorem findGosub_none (s : List StackEntry) (h : ∀ e ∈ s, entry_is_gosub e = false) :
    findGosub s = none := by
  induction s with
  | nil => rfl
  | cons a s ih =>
    cases a with
    | gosubE x =>
      have := h _ (List.mem_cons_self _ _)
      simp [entry_is_gosub] at this
    | forE f =>
      simp only [findGosub]
      exact ih (fun e he => h e (List.mem_cons_of_mem _ he))

/-- `findFor` skips frames that do not match and returns the first
matching FOR frame together with the stack below it. -/
theorem findFor_append (var? : Option VariableName) (pre below : List StackEntry)
    (f : ForLoopEntry) (h : ∀ e ∈ pre, for_matches var? e = false)
    (hf : for_matches var? (StackEntry.forE f) = true) :
    findFor var? (pre ++ StackEntry.forE f :: below) = some (f, below) := by
  simp only [for_matches] at hf
  induction pre with
  | nil =>
    simp only [List.nil_append, findFor]
    rw [if_pos hf]
  | cons a pre ih =>
    cases a with
    | gosubE x =>
      simp only [List.cons_append, findFor]
      exact ih (fun e he => h e (List.mem_cons_of_mem _ he))
    | forE g =>
      have ha := h _ (List.mem_cons_self _ _)
      simp only [for_matches] at ha
      simp only [List.cons_append, findFor]
      rw [if_neg (by simp [ha])]
      exact ih (fun e he => h e (List.mem_cons_of_mem _ he))

/-- A stack with no matching FOR frame makes `findFor` fail. -/
theorem findFor_none (var? : Option VariableName) (s : List StackEntry)
    (h : ∀ e ∈ s, for_matches var? e = false) : findFor var? s = none := by
  induction s with
  | nil => rfl
  | cons a s ih =>
    cases a with
    | gosubE x =>
      simp only [findFor]
      exact ih (fun e he => h e (List.mem_cons_of_mem _ he))
    | forE g =>
      have ha := h _ (List.mem_cons_self _ _)
      simp only [for_matches] at ha
      simp only [findFor]
      rw [if_neg (by simp [ha])]
      exact ih (fun e he => h e (List.mem_cons_of_mem _ he))

/-- C4 amended: `RETURN` pops down to and including the nearest GOSUB
frame (discarding FOR frames above it), `ERR_RG` when none exists;
`NEXT` pops down to the matching FOR frame only when the loop exits —
when the loop continues the whole stack, intervening frames included,
is left unchanged — and `ERR_NF` when no frame matches. -/
theorem claim_C4_amended :
    (∀ (st : BasicState) (pre below : List StackEntry) (g : GosubEntry),
        st.stack = pre ++ StackEntry.gosubE g :: below →
        (∀ e ∈ pre, entry_is_gosub e = false) →
        (stmt_return st).1 = ErrorCode.ERR_NONE ∧ (stmt_return st).2.stack = below)
    ∧ (∀ st : BasicState, (∀ e ∈ st.stack, entry_is_gosub e = false) →
        stmt_return st = (ErrorCode.ERR_RG, st))
    ∧ (∀ (var? : Option VariableName) (st : BasicState) (pre below : List StackEntry)
        (f : ForLoopEntry),
        st.stack = pre ++ StackEntry.forE f :: below →
        (∀ e ∈ pre, for_matches var? e = false) →
        for_matches var? (StackEntry.forE f) = true →
        ((if Q.ble 0 f.step then Q.blt f.limit (Q.add (readVarNum st f.loop_var) f.step)
            else Q.blt (Q.add (readVarNum st f.loop_var) f.step) f.limit) = true →
          (stmt_next_core var? st).1 = ErrorCode.ERR_NONE
          ∧ (stmt_next_core var? st).2.stack = below)
        ∧ ((if Q.ble 0 f.step then Q.blt f.limit (Q.add (readVarNum st f.loop_var) f.step)
            else Q.blt (Q.add (readVarNum st f.loop_var) f.step) f.limit) = false →
          (stmt_next_core var? st).1 = ErrorCode.ERR_NONE
          ∧ (stmt_next_core var? st).2.stack = st.stack))
    ∧ (∀ (var? : Option VariableName) (st : BasicState),
        (∀ e ∈ st.stack, for_matches var? e = false) →
        stmt_next_core var? st = (ErrorCode.ERR_NF, st)) := by
  refine ⟨?_, ?_, ?_, ?_⟩
  · intro st pre below g hstack h
    unfold stmt_return
    rw [hstack, findGosub_append pre below g h]
    constructor
    · rfl
    · rfl
  · intro st h
    unfold stmt_return
    rw [findGosub_none st.stack h]
  · intro var? st pre below f hstack h hf
    unfold stmt_next_core
    rw [hstack, findFor_append var? pre below f h hf]
    dsimp only
    constructor
    · intro hdone
      rw [hdone]
      exact ⟨by simp, by simp⟩
    · intro hdone
      rw [hdone]
      exact ⟨by simp, by simpa [writeVar] using hstack⟩
  · intro var? st h
    unfold stmt_next_core
    rw [findFor_none var? st.stack h]

/-- Witness for C4: the continuing `NEXT I` of the C4 scenario (I = 1,
step 1, limit 10, a GOSUB frame above the FOR frame) answers
`ERR_NONE` and leaves the whole stack unchanged. -/
theorem claim_C4_witness :
    (stmt_next_core (some (parse_var_name (strBytes "I"))) C4_state).1 = ErrorCode.ERR_NONE
    ∧ (stmt_next_core (some (parse_var_name (strBytes "I"))) C4_state).2.stack
      = C4_state.stack :=
  (claim_C4_amended.2.2.1 (some (parse_var_name (strBytes "I"))) C4_state
    [StackEntry.gosubE C4_gosubEntry] [] C4_forEntry (by decide) (by decide)
    (by decide)).2 (by decide)

/-- The head of a successful `goto_scan` has number at least the target. -/
theorem goto_scan_head_ge (p : List ProgramLine) (n : Int) (l : ProgramLine)
    (rest : List ProgramLine) (h : goto_scan p n = some (l :: rest)) :
    l.line_number ≥ n := by
  induction p with
  | nil => simp [goto_scan] at h
  | cons a p ih =>
    unfold goto_scan at h
    by_cases ha : a.line_number < n
    · rw [if_pos ha] at h
      exact ih h
    · rw [if_neg ha] at h
      injection h with h
      injection h with h1 h2
      subst h1
      omega

/-- C1 amended: `GOTO n` answers `ERR_US` without moving when `n` is
outside 0..63999; with `n` in range and no stored line numbered `n`,
both `GOTO n` and `GOSUB n` transfer control to the first stored line
with number ≥ `n` when one exists (`ERR_NONE`, with GOSUB pushing its
return frame), and answer `ERR_US` with the current line cleared (and
the GOSUB frame popped again) only when every stored line is below
`n`. -/
theorem claim_C1_amended :
    ∀ (fuel : Nat) (st st1 : BasicState) (n : Q),
      basic_eval_numeric fuel st = some (ErrorCode.ERR_NONE, n, st1) →
      ((Q.blt n 0 = true ∨ Q.blt ⟨BASIC_LINE_NUM_MAX, 1⟩ n = true →
          stmt_goto fuel st = some (ErrorCode.ERR_US, st1))
       ∧ (Q.blt n 0 = false → Q.blt ⟨BASIC_LINE_NUM_MAX, 1⟩ n = false →
          basic_find_line st1 (Q.trunc n) = none →
          ((∀ (l : ProgramLine) (rest : List ProgramLine),
              goto_scan st1.program (Q.trunc n) = some (l :: rest) →
              l.line_number ≥ Q.trunc n
              ∧ stmt_goto fuel st = some (ErrorCode.ERR_NONE,
                  { st1 with current_line := some (l :: rest)
                           , current_line_num := l.line_number, text_ptr := l.text }))
           ∧ (goto_scan st1.program (Q.trunc n) = none →
              stmt_goto fuel st = some (ErrorCode.ERR_US,
                { st1 with current_line := none, current_line_num := 0
                         , text_ptr := [] })))))
      ∧ (st1.stack.length < st1.stack_size →
         basic_find_line st1 (Q.trunc n) = none →
         ((∀ (l : ProgramLine) (rest : List ProgramLine),
             goto_scan st1.program (Q.trunc n) = some (l :: rest) →
             stmt_gosub fuel st = some (ErrorCode.ERR_NONE,
               { st1 with
                 stack := StackEntry.gosubE ⟨st1.current_line_num, st1.text_ptr⟩ :: st1.stack
               , current_line := some (l :: rest)
               , current_line_num := l.line_number, text_ptr := l.text }))
          ∧ (goto_scan st1.program (Q.trunc n) = none →
             stmt_gosub fuel st = some (ErrorCode.ERR_US,
               { st1 with current_line := none, current_line_num := 0
                        , text_ptr := [] })))) := by
  intro fuel st st1 n heval
  have hne : ¬ (ErrorCode.ERR_NONE ≠ ErrorCode.ERR_NONE) := by simp
  refine ⟨⟨?_, ?_⟩, ?_⟩
  · intro hrange
    unfold stmt_goto
    rw [heval]
    dsimp only
    rw [if_neg hne, if_pos hrange]
  · intro hb1 hb2 hfind
    unfold basic_find_line at hfind
    constructor
    · intro l rest hscan
      refine ⟨goto_scan_head_ge _ _ _ _ hscan, ?_⟩
      unfold stmt_goto
      rw [heval]
      dsimp only
      rw [if_neg hne, if_neg (by simp [hb1, hb2])]
      unfold basic_goto_line basic_find_line
      dsimp only
      rw [hfind, hscan]
      rfl
    · intro hscan
      unfold stmt_goto
      rw [heval]
      dsimp only
      rw [if_neg hne, if_neg (by simp [hb1, hb2])]
      unfold basic_goto_line basic_find_line
      dsimp only
      rw [hfind, hscan]
      rfl
  · intro hroom hfind
    unfold basic_find_line at hfind
    constructor
    · intro l rest hscan
      unfold stmt_gosub
      rw [heval]
      dsimp only
      rw [if_neg hne, if_neg (by omega)]
      unfold basic_goto_line basic_find_line
      dsimp only
      rw [hfind, hscan]
      rfl
    · intro hscan
      unfold stmt_gosub
      rw [heval]
      dsimp only
      rw [if_neg hne, if_neg (by omega)]
      unfold basic_goto_line basic_find_line
      dsimp only
      rw [hfind, hscan]
      rfl

/-- Witness for C1: `GOTO 10` with only line 30 stored jumps forward
to line 30 with `ERR_NONE`. -/
theorem claim_C1_witness :
    (⟨30, strBytes "A=7"⟩ : ProgramLine).line_number ≥ Q.trunc ⟨10, 1⟩
    ∧ stmt_goto 20 C1_state = some (ErrorCode.ERR_NONE,
        { C1s1 with current_line := some [⟨30, strBytes "A=7"⟩]
                  , current_line_num := 30, text_ptr := strBytes "A=7" }) :=
  ((claim_C1_amended 20 C1_state C1s1 ⟨10, 1⟩ (by decide)).1.2 (by decide) (by decide)
    (by decide)).1 ⟨30, strBytes "A=7"⟩ [] (by decide)

/-- `var_names_equal` is reflexive. -/
theorem var_names_equal_refl (v : VariableName) : var_names_equal v v = true := by
  simp [var_names_equal]

/-- C8: dimensioning an absent array name with subscript bound 10 (the
auto-dim of `parse_variable`) succeeds and records a one-dimensional
array of 11 elements; a later `DIM` of the same name (any dimension
count 1..11) answers `ERR_DD`; subscripts 0..10 address the 11
elements and anything outside is refused; evaluating `A(3)` from a
fresh state creates exactly that 11-element array and yields 0. -/
theorem claim_C8_autodim :
    (∀ (st : BasicState) (name : List Nat),
        basic_get_array st name = none →
        (basic_dim_array st name [10]).1 = ErrorCode.ERR_NONE
        ∧ basic_get_array (basic_dim_array st name [10]).2 name = some
            { name := parse_var_name name, num_dims := 1, dims := [11]
            , data := List.replicate 11
                (if (parse_var_name name).isString then Val.str [] else Val.num 0) }
        ∧ (∀ dims2 : List Int, 1 ≤ dims2.length → dims2.length ≤ BASIC_ARRAY_DIMS →
            (basic_dim_array (basic_dim_array st name [10]).2 name dims2).1
              = ErrorCode.ERR_DD))
    ∧ (∀ (nm : VariableName) (d : List Val) (i : Int),
        (0 ≤ i → i ≤ 10 →
          array_index { name := nm, num_dims := 1, dims := [11], data := d } [i]
            = some i.toNat)
        ∧ (i < 0 ∨ 10 < i →
          array_index { name := nm, num_dims := 1, dims := [11], data := d } [i] = none))
    ∧ (basic_evaluate 40 { basic_init with text_ptr := strBytes "A(3)" }).map
        (fun r => (r.1, r.2.1, r.2.2.arrays))
      = some (ErrorCode.ERR_NONE, Val.num 0,
          [{ name := parse_var_name (strBytes "A"), num_dims := 1, dims := [11]
           , data := List.replicate 11 (Val.num 0) }]) := by
  refine ⟨?_, ?_, by decide⟩
  · intro st name h
    have hdim : basic_dim_array st name [10] = (ErrorCode.ERR_NONE,
        { st with arrays :=
            { name := parse_var_name name, num_dims := 1, dims := [11]
            , data := List.replicate 11
                (if (parse_var_name name).isString then Val.str [] else Val.num 0) }
            :: st.arrays }) := by
      unfold basic_dim_array
      rw [if_neg (by decide), h]
      rw [if_neg (by simp), if_neg (by decide)]
      rfl
    have hget : basic_get_array (basic_dim_array st name [10]).2 name = some
        { name := parse_var_name name, num_dims := 1, dims := [11]
        , data := List.replicate 11
            (if (parse_var_name name).isString then Val.str [] else Val.num 0) } := by
      rw [hdim]
      unfold basic_get_array
      dsimp only
      exact List.find?_cons_of_pos _ (var_names_equal_refl _)
    refine ⟨by rw [hdim], hget, ?_⟩
    intro dims2 h1 h2
    have hget2 := hget
    rw [hdim] at hget2 ⊢
    unfold basic_dim_array
    rw [if_neg (by simp only [BASIC_ARRAY_DIMS] at h2 ⊢; omega)]
    rw [hget2]
    rfl
  · intro nm d i
    have hred : array_index { name := nm, num_dims := 1, dims := [11], data := d } [i]
        = if i < 0 ∨ i ≥ (11 : Int) then none else some (0 + i.toNat * 1) := rfl
    constructor
    · intro h0 h10
      rw [hred, if_neg (by omega)]
      simp
    · intro hbad
      rw [hred, if_pos (by omega)]

/-- Witness for C8: dimensioning `A` with bound 10 in the fresh state
succeeds, and a second `DIM A(5)` answers `ERR_DD`. -/
theorem claim_C8_witness :
    (basic_dim_array basic_init (strBytes "A") [10]).1 = ErrorCode.ERR_NONE
    ∧ (basic_dim_array (basic_dim_array basic_init (strBytes "A") [10]).2
        (strBytes "A") [5]).1 = ErrorCode.ERR_DD := by
  have h := claim_C8_autodim.1 basic_init (strBytes "A") (by decide)
  exact ⟨h.1, h.2.2 [5] (by decide) (by decide)⟩

/-- Rewriting a name that no list entry carries changes nothing. -/
theorem map_write_id (l : List Variable) (nm : VariableName) (val : Val)
    (h : l.find? (fun v => var_names_equal v.name nm) = none) :
    l.map (fun v => if var_names_equal v.name nm then { v with value := val } else v) = l := by
  have h' := List.find?_eq_none.mp h
  calc l.map (fun v => if var_names_equal v.name nm then { v with value := val } else v)
      = l.map id := List.map_congr_left (fun a ha => by
        dsimp only [id]
        rw [if_neg (h' a ha)])
    _ = l := List.map_id l

/-- C10: evaluating a reference to a never-assigned scalar variable
never errors — the variable is created on first reference and the read
yields 0 for a numeric name and the empty string for a `$`-suffixed
name, the fresh variable being prepended to the variable list. -/
theorem claim_C10_default :
    ∀ (fuel : Nat) (st : BasicState) (name0 text : List Nat),
      scan_name st.text_ptr [] = (name0, text) →
      ((peekCharL text ≠ 36 → peekCharL text ≠ 37 →
        peekCharL (skipSpacesL text) ≠ 40 →
        basic_get_variable st name0 = none →
        parse_variable (fuel + 1) st = some (ErrorCode.ERR_NONE, Val.num 0,
          { st with text_ptr := skipSpacesL text
                  , vars := { name := parse_var_name name0, value := Val.num 0 }
                      :: st.vars }))
       ∧ (text.headD 0 = 36 →
          peekCharL (skipSpacesL (text.drop 1)) ≠ 40 →
          basic_get_variable st (name0 ++ [36]) = none →
          parse_variable (fuel + 1) st = some (ErrorCode.ERR_NONE, Val.str [],
            { st with text_ptr := skipSpacesL (text.drop 1)
                    , vars := { name := parse_var_name (name0 ++ [36]), value := Val.str [] }
                        :: st.vars }))) := by
  intro fuel st name0 text hscan
  constructor
  · intro h36 h37 h40 hget
    unfold basic_get_variable at hget
    unfold parse_variable
    rw [hscan]
    dsimp only [basic_peek_char, basic_skip_spaces]
    rw [if_neg h36, if_neg h37]
    dsimp only
    rw [if_neg h40]
    unfold basic_get_variable
    dsimp only
    rw [hget]
    dsimp only [basic_create_variable, writeVar]
    rw [List.map_cons, if_pos (var_names_equal_refl _), map_write_id _ _ _ hget]
    rfl
  · intro h36 h40 hget
    unfold basic_get_variable at hget
    match text, h36 with
    | 36 :: t, _ =>
      simp only [List.drop_succ_cons, List.drop_zero] at h40
      unfold parse_variable
      rw [hscan]
      dsimp only [basic_peek_char, basic_skip_spaces, adv]
      rw [show peekCharL (36 :: t) = 36 from rfl]
      rw [if_pos (rfl : (36 : Nat) = 36)]
      simp only [List.drop_succ_cons, List.drop_zero]
      rw [if_neg h40]
      unfold basic_get_variable
      dsimp only
      rw [hget]
      dsimp only [basic_create_variable, writeVar]
      rw [List.map_cons, if_pos (var_names_equal_refl _), map_write_id _ _ _ hget]
      rfl

/-- Witness for C10: reading the fresh variable `X` in the initial
state creates it and yields 0 without error. -/
theorem claim_C10_witness :
    parse_variable 6 { basic_init with text_ptr := strBytes "X" }
      = some (ErrorCode.ERR_NONE, Val.num 0,
          { basic_init with
            text_ptr := ([] : List Nat),
            vars := [{ name := parse_var_name (strBytes "X"), value := Val.num 0 }] }) :=
  (claim_C10_default 5 { basic_init with text_ptr := strBytes "X" } [88] []
    (by decide)).1 (by decide) (by decide) (by decide) (by decide)

end CBASIC
